import Mathlib

/-! GTSAM `NonlinearOptimizer.cpp`: convergence check, iteration loop, solver dispatch

A shallow embedding of `gtsam/nonlinear/NonlinearOptimizer.cpp`.

Numbers.  The definitions come in two layers.  In the first, a finite `double` is
an exact rational (`ℚ`) and nothing rounds; the only operation that can leave the
finite range there is the division `absoluteDecrease / currentError` with a zero
divisor, whose IEEE result (`+inf`, `-inf` or `NaN`, for a positive zero divisor)
is kept as an `ExtDouble`, compared as IEEE compares (`NaN <= x` is false).  This
layer carries the properties of the control flow, which hold whatever the rounding
is.  The second layer (namespace `machine`) follows the same source lines over all
the values a `double` can hold, `NaN`, the infinities and `-0.0` included, with the
rounding subtraction and division as parameters; it carries the properties that
depend on what the machine computes.  Without rounding and on finite operands the
two layers give the same verdict (`machine.checkConvergence_exact_eq_machine`).

Output.  What the code writes to `cout` is kept as an explicit list of stream
items, in order.  `tictoc_finishedIteration()` only records timing and is left
out.
-/

namespace gtsam

/-! ## Numbers -/

/-- The value of a `double` expression that may have left the finite range. -/
inductive ExtDouble where
  | finite (q : ℚ)
  | posInf
  | negInf
  | nan
  deriving DecidableEq, Repr

/-- The quotient `x / y` of two finite doubles (exact where `y` is not zero; the
IEEE special values for a division by positive zero). -/
def divDouble (x y : ℚ) : ExtDouble :=
  if y = 0 then
    if x = 0 then ExtDouble.nan
    else if 0 < x then ExtDouble.posInf
    else ExtDouble.negInf
  else ExtDouble.finite (x / y)

/-- The comparison `x <= t` of a possibly non-finite `x` with a finite `t`. -/
def ExtDouble.le (x : ExtDouble) (t : ℚ) : Bool :=
  match x with
  | ExtDouble.finite q => decide (q ≤ t)
  | ExtDouble.posInf => false
  | ExtDouble.negInf => true
  | ExtDouble.nan => false

/-! ## Verbosity and the output stream -/

/-- Modelled from the spec: the enumeration `NonlinearOptimizerParams::Verbosity`
(declared in a header that is not among the sources), with the tiers the spec
lists, in increasing order. -/
inductive Verbosity where
  | SILENT
  | TERMINATION
  | ERROR
  | VALUES
  deriving DecidableEq, Repr

/-- The integer value of an enumerator, which is what `>=` compares. -/
def Verbosity.toNat : Verbosity → Nat
  | Verbosity.SILENT => 0
  | Verbosity.TERMINATION => 1
  | Verbosity.ERROR => 2
  | Verbosity.VALUES => 3

/-- The test `verbosity >= level`. -/
def Verbosity.ge (verbosity level : Verbosity) : Bool :=
  decide (level.toNat ≤ verbosity.toNat)

/-- One item written to `cout` (or printed by `Values::print`). -/
inductive Output (V : Type) where
  | text (s : String)
  | number (x : ℚ)
  | quotient (x : ExtDouble)
  | count (n : Nat)
  | setprecision (n : Nat)
  | endl
  | print (v : V) (label : String)

/-! ## `checkConvergence` -/

/-- The function `checkConvergence` (six-argument overload): the verdict, and the
items written to `cout`. -/
def checkConvergence {V : Type} (relativeErrorTreshold absoluteErrorTreshold
    errorThreshold currentError newError : ℚ) (verbosity : Verbosity) :
    Bool × List (Output V) :=
  let out1 : List (Output V) :=
    if verbosity.ge Verbosity.ERROR then
      if newError ≤ errorThreshold then
        [Output.text "errorThreshold: ", Output.number newError, Output.text " < ",
          Output.number errorThreshold, Output.endl]
      else
        [Output.text "errorThreshold: ", Output.number newError, Output.text " > ",
          Output.number errorThreshold, Output.endl]
    else []
  if newError ≤ errorThreshold then
    (true, out1)
  else
    -- check if diverges
    let absoluteDecrease : ℚ := currentError - newError
    let out2 : List (Output V) :=
      if verbosity.ge Verbosity.ERROR then
        if absoluteDecrease ≤ absoluteErrorTreshold then
          [Output.text "absoluteDecrease: ", Output.setprecision 12,
            Output.number absoluteDecrease, Output.text " < ",
            Output.number absoluteErrorTreshold, Output.endl]
        else
          [Output.text "absoluteDecrease: ", Output.setprecision 12,
            Output.number absoluteDecrease, Output.text " >= ",
            Output.number absoluteErrorTreshold, Output.endl]
      else []
    -- calculate relative error decrease
    let relativeDecrease : ExtDouble := divDouble absoluteDecrease currentError
    let out3 : List (Output V) :=
      if verbosity.ge Verbosity.ERROR then
        if relativeDecrease.le relativeErrorTreshold then
          [Output.text "relativeDecrease: ", Output.setprecision 12,
            Output.quotient relativeDecrease, Output.text " < ",
            Output.number relativeErrorTreshold, Output.endl]
        else
          [Output.text "relativeDecrease: ", Output.setprecision 12,
            Output.quotient relativeDecrease, Output.text " >= ",
            Output.number relativeErrorTreshold, Output.endl]
      else []
    let converged : Bool :=
      (decide (relativeErrorTreshold ≠ 0) && relativeDecrease.le relativeErrorTreshold) ||
        decide (absoluteDecrease ≤ absoluteErrorTreshold)
    let out4 : List (Output V) :=
      if verbosity.ge Verbosity.TERMINATION && converged then
        (if 0 ≤ absoluteDecrease then
          [Output.text "converged", Output.endl]
        else
          [Output.text "Warning:  stopping nonlinear iterations because error increased",
            Output.endl]) ++
        [Output.text "errorThreshold: ", Output.number newError, Output.text " <? ",
          Output.number errorThreshold, Output.endl,
          Output.text "absoluteDecrease: ", Output.setprecision 12,
          Output.number absoluteDecrease, Output.text " <? ",
          Output.number absoluteErrorTreshold, Output.endl,
          Output.text "relativeDecrease: ", Output.setprecision 12,
          Output.quotient relativeDecrease, Output.text " <? ",
          Output.number relativeErrorTreshold, Output.endl]
      else []
    (converged, out1 ++ out2 ++ out3 ++ out4)

/-! ## Optimizer state and parameters -/

/-- The record `internal::NonlinearOptimizerState`, read through the accessors
`values()`, `error()` and `iterations()`. -/
structure NonlinearOptimizerState (V : Type) where
  values : V
  error : ℚ
  iterations : Nat

/-- Modelled from the spec: the solver-family selector of the configuration
(`solverFamily`), read in the code through `isMultifrontal()`, `isSequential()`,
`isIterative()`, `isEigenQR()` and `isEigenCholesky()`, whose header is not among
the sources.  `unrecognized` stands for any other value of the enumeration. -/
inductive SolverFamily where
  | MULTIFRONTAL
  | SEQUENTIAL
  | ITERATIVE
  | EXTERNAL_QR
  | EXTERNAL_CHOLESKY
  | unrecognized (code : Nat)
  deriving DecidableEq, Repr

/-- Modelled from the spec: the factorization kind (`eliminationFunction`) that
`getEliminationFunction()` hands to the direct solvers. -/
inductive EliminationFunction where
  | QR
  | CHOLESKY
  deriving DecidableEq, Repr

/-- What `params.iterativeParams` points to when it is not null, by the dynamic
type the two `dynamic_pointer_cast`s of `solve` test for. -/
inductive IterativeOptimizationParameters (P S X : Type) where
  | pcg (p : P)
  | subgraph (s : S)
  | other (x : X)

/-- The configuration `NonlinearOptimizerParams`.  The types of an ordering
(`O`), of the ordering-strategy selector (`T`) and of the iterative-solver
parameter objects (`P`, `S`, `X`) belong to other parts of the library and are
parameters; `iterativeParams = none` is the null pointer. -/
structure NonlinearOptimizerParams (O T P S X : Type) where
  maxIterations : Nat
  relativeErrorTol : ℚ
  absoluteErrorTol : ℚ
  errorTol : ℚ
  verbosity : Verbosity
  ordering : Option O
  solverFamily : SolverFamily
  eliminationFunction : EliminationFunction
  orderingType : T
  iterativeParams : Option (IterativeOptimizationParameters P S X)

/-- Modelled from the spec: `params.isMultifrontal()`. -/
def NonlinearOptimizerParams.isMultifrontal {O T P S X : Type}
    (params : NonlinearOptimizerParams O T P S X) : Bool :=
  decide (params.solverFamily = SolverFamily.MULTIFRONTAL)

/-- Modelled from the spec: `params.isSequential()`. -/
def NonlinearOptimizerParams.isSequential {O T P S X : Type}
    (params : NonlinearOptimizerParams O T P S X) : Bool :=
  decide (params.solverFamily = SolverFamily.SEQUENTIAL)

/-- Modelled from the spec: `params.isIterative()`. -/
def NonlinearOptimizerParams.isIterative {O T P S X : Type}
    (params : NonlinearOptimizerParams O T P S X) : Bool :=
  decide (params.solverFamily = SolverFamily.ITERATIVE)

/-- Modelled from the spec: `params.isEigenQR()`. -/
def NonlinearOptimizerParams.isEigenQR {O T P S X : Type}
    (params : NonlinearOptimizerParams O T P S X) : Bool :=
  decide (params.solverFamily = SolverFamily.EXTERNAL_QR)

/-- Modelled from the spec: `params.isEigenCholesky()`. -/
def NonlinearOptimizerParams.isEigenCholesky {O T P S X : Type}
    (params : NonlinearOptimizerParams O T P S X) : Bool :=
  decide (params.solverFamily = SolverFamily.EXTERNAL_CHOLESKY)

/-- The overload `checkConvergence(params, currentError, newError)`. -/
def checkConvergenceParams {V O T P S X : Type} (params : NonlinearOptimizerParams O T P S X)
    (currentError newError : ℚ) : Bool × List (Output V) :=
  checkConvergence params.relativeErrorTol params.absoluteErrorTol params.errorTol
    currentError newError params.verbosity

/-! ## Failures -/

/-- A C++ exception in flight. -/
inductive Exception where
  | runtime_error (what : String)
  | other (code : Nat)
  deriving DecidableEq, Repr

/-! ## `defaultOptimize` -/

/-- What a run of `defaultOptimize` does besides printing, in order. -/
inductive Event (V : Type) where
  | iterate (state : NonlinearOptimizerState V)
  | checkConvergence (currentError newError : ℚ) (converged : Bool)

/-- How a run ended: it returned, an exception left it, or the model stopped
following it (the loop had not ended after the given number of passes). -/
inductive Status where
  | returned
  | threw (e : Exception)
  | outOfFuel
  deriving DecidableEq, Repr

/-- A run: how it ended, the state `state_` at that point, the calls of
`iterate()` and `checkConvergence` it made, and what it wrote to `cout`. -/
structure Run (V : Type) where
  status : Status
  state : NonlinearOptimizerState V
  trace : List (Event V)
  output : List (Output V)

/-- The number of calls of `iterate()` in a trace. -/
def invocations {V : Type} : List (Event V) → Nat
  | [] => 0
  | Event.iterate _ :: rest => invocations rest + 1
  | Event.checkConvergence _ _ _ :: rest => invocations rest

/-- The `do ... while` loop of `defaultOptimize`, entered with `state_ = state`;
`fuel` bounds the number of passes followed.  `iterate` is the pure virtual
`iterate()`: it replaces the state or throws. -/
def iterativeLoop {V O T P S X : Type}
    (iterate : NonlinearOptimizerState V → Except Exception (NonlinearOptimizerState V))
    (params : NonlinearOptimizerParams O T P S X) :
    Nat → NonlinearOptimizerState V → Run V
  | 0, state => { status := Status.outOfFuel, state := state, trace := [], output := [] }
  | fuel + 1, state =>
    -- Do next iteration
    let currentError := state.error
    match iterate state with
    | Except.error e =>
      { status := Status.threw e, state := state, trace := [Event.iterate state], output := [] }
    | Except.ok newState =>
      -- Maybe show output
      let out : List (Output V) :=
        (if params.verbosity.ge Verbosity.VALUES then
          [Output.print newState.values "newValues"] else []) ++
        (if params.verbosity.ge Verbosity.ERROR then
          [Output.text "newError: ", Output.number newState.error, Output.endl] else [])
      if newState.iterations < params.maxIterations then
        let check : Bool × List (Output V) :=
          checkConvergence params.relativeErrorTol params.absoluteErrorTol params.errorTol
            currentError newState.error params.verbosity
        let events : List (Event V) :=
          [Event.iterate state, Event.checkConvergence currentError newState.error check.1]
        if !check.1 then
          let rest := iterativeLoop iterate params fuel newState
          { status := rest.status, state := rest.state, trace := events ++ rest.trace,
            output := out ++ check.2 ++ rest.output }
        else
          { status := Status.returned, state := newState, trace := events,
            output := out ++ check.2 }
      else
        { status := Status.returned, state := newState, trace := [Event.iterate state],
          output := out }

/-- The method `NonlinearOptimizer::defaultOptimize` (the spec's `run()`), started
with `state_ = state`. -/
def defaultOptimize {V O T P S X : Type}
    (iterate : NonlinearOptimizerState V → Except Exception (NonlinearOptimizerState V))
    (params : NonlinearOptimizerParams O T P S X) (fuel : Nat)
    (state : NonlinearOptimizerState V) : Run V :=
  let currentError := state.error
  -- check if we're already close enough
  if currentError ≤ params.errorTol then
    { status := Status.returned, state := state, trace := [],
      output :=
        if params.verbosity.ge Verbosity.ERROR then
          [Output.text "Exiting, as error = ", Output.number currentError, Output.text " < ",
            Output.number params.errorTol, Output.endl]
        else [] }
  else
    -- Maybe show output
    let out0 : List (Output V) :=
      (if params.verbosity.ge Verbosity.VALUES then
        [Output.print state.values "Initial values"] else []) ++
      (if params.verbosity.ge Verbosity.ERROR then
        [Output.text "Initial error: ", Output.number currentError, Output.endl] else [])
    -- Return if we already have too many iterations
    if params.maxIterations ≤ state.iterations then
      { status := Status.returned, state := state, trace := [],
        output := out0 ++
          (if params.verbosity.ge Verbosity.TERMINATION then
            [Output.text "iterations: ", Output.count state.iterations, Output.text " >? ",
              Output.count params.maxIterations, Output.endl]
          else []) }
    else
      -- Iterative loop
      let run := iterativeLoop iterate params fuel state
      -- Printing if verbose
      let out1 : List (Output V) :=
        if run.status = Status.returned ∧ params.verbosity.ge Verbosity.TERMINATION = true then
          [Output.text "iterations: ", Output.count run.state.iterations, Output.text " >? ",
            Output.count params.maxIterations, Output.endl] ++
          (if params.maxIterations ≤ run.state.iterations then
            [Output.text "Terminating because reached maximum iterations", Output.endl]
          else [])
        else []
      { status := run.status, state := run.state, trace := run.trace,
        output := out0 ++ run.output ++ out1 }

/-- The method `NonlinearOptimizer::optimizeSafely`; `empty` is its
`static const Values empty`.  No value where the run was not followed to its
end. -/
def optimizeSafely {V O T P S X : Type} (empty : V)
    (iterate : NonlinearOptimizerState V → Except Exception (NonlinearOptimizerState V))
    (params : NonlinearOptimizerParams O T P S X) (fuel : Nat)
    (state : NonlinearOptimizerState V) : Option V :=
  let run := defaultOptimize iterate params fuel state
  match run.status with
  | Status.returned => some run.state.values
  | Status.threw _ => some empty
  | Status.outOfFuel => none


/-! ## `solve` -/

/-- The solver back ends `solve` can hand the linear system to. -/
inductive BackendCall where
  | optimize
  | eliminateSequential
  | PCGSolver
  | SubgraphSolver
  | fromNonlinearParams
  | linearSolverSolve
  deriving DecidableEq, Repr

/-- The back ends themselves, which belong to other parts of the library: each
gives a step (`D`, the type `VectorValues`) for a linear system (`G`, the type
`GaussianFactorGraph`), or throws.  `L` is the type `LinearSolver`. -/
structure Backends (G D L O T P S X : Type) where
  /-- The call `gfg.optimize(optionalOrdering, eliminate)`. -/
  optimize : G → Option O → EliminationFunction → Except Exception D
  /-- The call `gfg.eliminateSequential(optionalOrdering, eliminate, boost::none,
  orderingType)->optimize()`. -/
  eliminateSequential : G → Option O → EliminationFunction → T → Except Exception D
  /-- The call `PCGSolver(*pcg).optimize(gfg)`. -/
  pcgSolver : P → G → Except Exception D
  /-- The call `SubgraphSolver(gfg, *spcg, *params.ordering).optimize()`. -/
  subgraphSolver : G → S → O → Except Exception D
  /-- The call `LinearSolver::fromNonlinearParams(params)`. -/
  fromNonlinearParams : NonlinearOptimizerParams O T P S X → Except Exception L
  /-- The call `solver.solve(gfg, ordering)`. -/
  linearSolverSolve : L → G → O → Except Exception D

/-- How a call of `solve` ends: it returns a step, an exception leaves it, or it
reads through an empty `boost::optional` (`*optionalOrdering` with no ordering),
after which the C++ standard promises nothing. -/
inductive SolveResult (D : Type) where
  | returned (delta : D)
  | threw (e : Exception)
  | undefinedBehaviour

/-- The end of `solve` when the last thing it does is take a back end's step. -/
def SolveResult.ofExcept {D : Type} : Except Exception D → SolveResult D
  | Except.ok delta => SolveResult.returned delta
  | Except.error e => SolveResult.threw e

/-- The method `NonlinearOptimizer::solve`: the back ends it called, in order,
and how it ended. -/
def solve {G D L O T P S X : Type} (backends : Backends G D L O T P S X) (gfg : G)
    (params : NonlinearOptimizerParams O T P S X) : List BackendCall × SolveResult D :=
  -- if (params.ordering) optionalOrdering.reset(*params.ordering);
  let optionalOrdering : Option O :=
    match params.ordering with
    | some ordering => some ordering
    | none => none
  -- Check which solver we are using
  if params.isMultifrontal then
    ([BackendCall.optimize],
      SolveResult.ofExcept (backends.optimize gfg optionalOrdering params.eliminationFunction))
  else if params.isSequential then
    ([BackendCall.eliminateSequential],
      SolveResult.ofExcept
        (backends.eliminateSequential gfg optionalOrdering params.eliminationFunction
          params.orderingType))
  else if params.isIterative then
    -- Conjugate Gradient -> needs params.iterativeParams
    match params.iterativeParams with
    | none =>
      ([], SolveResult.threw (Exception.runtime_error
        "NonlinearOptimizer::solve: cg parameter has to be assigned ..."))
    | some (IterativeOptimizationParameters.pcg pcg) =>
      ([BackendCall.PCGSolver], SolveResult.ofExcept (backends.pcgSolver pcg gfg))
    | some (IterativeOptimizationParameters.subgraph spcg) =>
      match params.ordering with
      | none => ([], SolveResult.threw (Exception.runtime_error "SubgraphSolver needs an ordering"))
      | some ordering =>
        ([BackendCall.SubgraphSolver],
          SolveResult.ofExcept (backends.subgraphSolver gfg spcg ordering))
    | some (IterativeOptimizationParameters.other _) =>
      ([], SolveResult.threw (Exception.runtime_error
        ("NonlinearOptimizer::solve: special cg parameter type is not handled " ++
          "in LM solver ...")))
  else if params.isEigenQR || params.isEigenCholesky then
    match backends.fromNonlinearParams params with
    | Except.error e => ([BackendCall.fromNonlinearParams], SolveResult.threw e)
    | Except.ok solver =>
      match optionalOrdering with
      | none => ([BackendCall.fromNonlinearParams], SolveResult.undefinedBehaviour)
      | some ordering =>
        ([BackendCall.fromNonlinearParams, BackendCall.linearSolverSolve],
          SolveResult.ofExcept (backends.linearSolverSolve solver gfg ordering))
  else
    ([], SolveResult.threw (Exception.runtime_error
      "NonlinearOptimizer::solve: Optimization parameter is invalid"))


/-! ## The same functions over machine doubles

The definitions above compute with exact rationals.  The definitions of this
section follow the same source lines over the values a `double` can hold, `NaN`,
the infinities and the negative zero included.  The comparisons of doubles are
exact functions of the values and are defined here; the subtraction of line 195
and the division of line 206 round, and are parameters (`Arithmetic`): whatever
the two operations return, the definitions go on with that value. -/

namespace machine

/-- The values of type `double`: a finite value (`finite 0` is `+0.0`; every
rational is allowed, so that the finite doubles are among them), `-0.0`, the two
infinities and `NaN`. -/
inductive Double where
  | finite (q : ℚ)
  | negZero
  | posInf
  | negInf
  | nan
  deriving DecidableEq

/-- The number a finite double or a zero stands for. -/
def Double.toRat : Double → ℚ
  | Double.finite q => q
  | _ => 0

/-- The comparison `x <= y` of two doubles: false when either is `NaN`, and the
two zeros are equal. -/
def Double.le (x y : Double) : Bool :=
  match x, y with
  | Double.nan, _ => false
  | _, Double.nan => false
  | Double.negInf, _ => true
  | _, Double.posInf => true
  | Double.posInf, _ => false
  | _, Double.negInf => false
  | x, y => decide (x.toRat ≤ y.toRat)

/-- The comparison `x < y` of two doubles (`y > x`): false when either is `NaN`. -/
def Double.lt (x y : Double) : Bool :=
  match x, y with
  | Double.nan, _ => false
  | _, Double.nan => false
  | Double.posInf, _ => false
  | _, Double.negInf => false
  | Double.negInf, _ => true
  | _, Double.posInf => true
  | x, y => decide (x.toRat < y.toRat)

/-- The conversion of a double to `bool` (as in `relativeErrorTreshold && ...`):
false for the two zeros, true for everything else, `NaN` included. -/
def Double.toBool : Double → Bool
  | Double.finite q => decide (q ≠ 0)
  | Double.negZero => false
  | _ => true

/-- The two rounding operations of `checkConvergence` on doubles: `sub x y` is
`x - y` and `div x y` is `x / y`, as the machine computes them. -/
structure Arithmetic where
  sub : Double → Double → Double
  div : Double → Double → Double

/-- One item written to `cout` (or printed by `Values::print`). -/
inductive Output (V : Type) where
  | text (s : String)
  | number (x : Double)
  | count (n : Nat)
  | setprecision (n : Nat)
  | endl
  | print (v : V) (label : String)

/-- The function `checkConvergence` (six-argument overload) over machine doubles:
the verdict, and the items written to `cout`. -/
def checkConvergence {V : Type} (arith : Arithmetic) (relativeErrorTreshold
    absoluteErrorTreshold errorThreshold currentError newError : Double)
    (verbosity : Verbosity) : Bool × List (Output V) :=
  let out1 : List (Output V) :=
    if verbosity.ge Verbosity.ERROR then
      if newError.le errorThreshold then
        [Output.text "errorThreshold: ", Output.number newError, Output.text " < ",
          Output.number errorThreshold, Output.endl]
      else
        [Output.text "errorThreshold: ", Output.number newError, Output.text " > ",
          Output.number errorThreshold, Output.endl]
    else []
  if newError.le errorThreshold then
    (true, out1)
  else
    -- check if diverges
    let absoluteDecrease : Double := arith.sub currentError newError
    let out2 : List (Output V) :=
      if verbosity.ge Verbosity.ERROR then
        if absoluteDecrease.le absoluteErrorTreshold then
          [Output.text "absoluteDecrease: ", Output.setprecision 12,
            Output.number absoluteDecrease, Output.text " < ",
            Output.number absoluteErrorTreshold, Output.endl]
        else
          [Output.text "absoluteDecrease: ", Output.setprecision 12,
            Output.number absoluteDecrease, Output.text " >= ",
            Output.number absoluteErrorTreshold, Output.endl]
      else []
    -- calculate relative error decrease
    let relativeDecrease : Double := arith.div absoluteDecrease currentError
    let out3 : List (Output V) :=
      if verbosity.ge Verbosity.ERROR then
        if relativeDecrease.le relativeErrorTreshold then
          [Output.text "relativeDecrease: ", Output.setprecision 12,
            Output.number relativeDecrease, Output.text " < ",
            Output.number relativeErrorTreshold, Output.endl]
        else
          [Output.text "relativeDecrease: ", Output.setprecision 12,
            Output.number relativeDecrease, Output.text " >= ",
            Output.number relativeErrorTreshold, Output.endl]
      else []
    let converged : Bool :=
      (relativeErrorTreshold.toBool && relativeDecrease.le relativeErrorTreshold) ||
        absoluteDecrease.le absoluteErrorTreshold
    let out4 : List (Output V) :=
      if verbosity.ge Verbosity.TERMINATION && converged then
        (if (Double.finite 0).le absoluteDecrease then
          [Output.text "converged", Output.endl]
        else
          [Output.text "Warning:  stopping nonlinear iterations because error increased",
            Output.endl]) ++
        [Output.text "errorThreshold: ", Output.number newError, Output.text " <? ",
          Output.number errorThreshold, Output.endl,
          Output.text "absoluteDecrease: ", Output.setprecision 12,
          Output.number absoluteDecrease, Output.text " <? ",
          Output.number absoluteErrorTreshold, Output.endl,
          Output.text "relativeDecrease: ", Output.setprecision 12,
          Output.number relativeDecrease, Output.text " <? ",
          Output.number relativeErrorTreshold, Output.endl]
      else []
    (converged, out1 ++ out2 ++ out3 ++ out4)

/-- The record `internal::NonlinearOptimizerState`, with the error as the double
it is. -/
structure NonlinearOptimizerState (V : Type) where
  values : V
  error : Double
  iterations : Nat

/-- The fields of `NonlinearOptimizerParams` that `defaultOptimize` and
`checkConvergence` read, the tolerances as the doubles they are. -/
structure NonlinearOptimizerParams where
  maxIterations : Nat
  relativeErrorTol : Double
  absoluteErrorTol : Double
  errorTol : Double
  verbosity : Verbosity

/-- What a run of `defaultOptimize` does besides printing, in order. -/
inductive Event (V : Type) where
  | iterate (state : NonlinearOptimizerState V)
  | checkConvergence (currentError newError : Double) (converged : Bool)

/-- A run: how it ended, the state `state_` at that point, the calls of
`iterate()` and `checkConvergence` it made, and what it wrote to `cout`. -/
structure Run (V : Type) where
  status : Status
  state : NonlinearOptimizerState V
  trace : List (Event V)
  output : List (Output V)

/-- The `do ... while` loop of `defaultOptimize` over machine doubles, entered with
`state_ = state`; `fuel` bounds the number of passes followed.  `iterate` is the
pure virtual `iterate()`: it replaces the state or throws. -/
def iterativeLoop {V : Type} (arith : Arithmetic)
    (iterate : NonlinearOptimizerState V → Except Exception (NonlinearOptimizerState V))
    (params : NonlinearOptimizerParams) :
    Nat → NonlinearOptimizerState V → Run V
  | 0, state => { status := Status.outOfFuel, state := state, trace := [], output := [] }
  | fuel + 1, state =>
    -- Do next iteration
    let currentError := state.error
    match iterate state with
    | Except.error e =>
      { status := Status.threw e, state := state, trace := [Event.iterate state], output := [] }
    | Except.ok newState =>
      -- Maybe show output
      let out : List (Output V) :=
        (if params.verbosity.ge Verbosity.VALUES then
          [Output.print newState.values "newValues"] else []) ++
        (if params.verbosity.ge Verbosity.ERROR then
          [Output.text "newError: ", Output.number newState.error, Output.endl] else [])
      if newState.iterations < params.maxIterations then
        let check : Bool × List (Output V) :=
          checkConvergence arith params.relativeErrorTol params.absoluteErrorTol
            params.errorTol currentError newState.error params.verbosity
        let events : List (Event V) :=
          [Event.iterate state, Event.checkConvergence currentError newState.error check.1]
        if !check.1 then
          let rest := iterativeLoop arith iterate params fuel newState
          { status := rest.status, state := rest.state, trace := events ++ rest.trace,
            output := out ++ check.2 ++ rest.output }
        else
          { status := Status.returned, state := newState, trace := events,
            output := out ++ check.2 }
      else
        { status := Status.returned, state := newState, trace := [Event.iterate state],
          output := out }

/-- The method `NonlinearOptimizer::defaultOptimize` (the spec's `run()`) over
machine doubles, started with `state_ = state`. -/
def defaultOptimize {V : Type} (arith : Arithmetic)
    (iterate : NonlinearOptimizerState V → Except Exception (NonlinearOptimizerState V))
    (params : NonlinearOptimizerParams) (fuel : Nat)
    (state : NonlinearOptimizerState V) : Run V :=
  let currentError := state.error
  -- check if we're already close enough
  if currentError.le params.errorTol then
    { status := Status.returned, state := state, trace := [],
      output :=
        if params.verbosity.ge Verbosity.ERROR then
          [Output.text "Exiting, as error = ", Output.number currentError, Output.text " < ",
            Output.number params.errorTol, Output.endl]
        else [] }
  else
    -- Maybe show output
    let out0 : List (Output V) :=
      (if params.verbosity.ge Verbosity.VALUES then
        [Output.print state.values "Initial values"] else []) ++
      (if params.verbosity.ge Verbosity.ERROR then
        [Output.text "Initial error: ", Output.number currentError, Output.endl] else [])
    -- Return if we already have too many iterations
    if params.maxIterations ≤ state.iterations then
      { status := Status.returned, state := state, trace := [],
        output := out0 ++
          (if params.verbosity.ge Verbosity.TERMINATION then
            [Output.text "iterations: ", Output.count state.iterations, Output.text " >? ",
              Output.count params.maxIterations, Output.endl]
          else []) }
    else
      -- Iterative loop
      let run := iterativeLoop arith iterate params fuel state
      -- Printing if verbose
      let out1 : List (Output V) :=
        if run.status = Status.returned ∧ params.verbosity.ge Verbosity.TERMINATION = true then
          [Output.text "iterations: ", Output.count run.state.iterations, Output.text " >? ",
            Output.count params.maxIterations, Output.endl] ++
          (if params.maxIterations ≤ run.state.iterations then
            [Output.text "Terminating because reached maximum iterations", Output.endl]
          else [])
        else []
      { status := run.status, state := run.state, trace := run.trace,
        output := out0 ++ run.output ++ out1 }

end machine

/-! ## Inputs used to instantiate the theorems -/

/-- A configuration with the given iteration budget and tolerances, silent, with
no ordering and the multifrontal Cholesky solver. -/
def exampleParams (maxIterations : Nat) (relativeErrorTol absoluteErrorTol errorTol : ℚ) :
    NonlinearOptimizerParams Unit Unit Unit Unit Unit :=
  { maxIterations := maxIterations, relativeErrorTol := relativeErrorTol,
    absoluteErrorTol := absoluteErrorTol, errorTol := errorTol,
    verbosity := Verbosity.SILENT, ordering := none,
    solverFamily := SolverFamily.MULTIFRONTAL,
    eliminationFunction := EliminationFunction.CHOLESKY, orderingType := (),
    iterativeParams := none }

/-- A state with no values to speak of, the given error and iteration count. -/
def exampleState (error : ℚ) (iterations : Nat) : NonlinearOptimizerState Unit :=
  { values := (), error := error, iterations := iterations }

/-- A one-step strategy that never fails, adds `change` to the error and counts
one iteration. -/
def exampleIterate (change : ℚ) (state : NonlinearOptimizerState Unit) :
    Except Exception (NonlinearOptimizerState Unit) :=
  Except.ok { values := state.values, error := state.error + change,
              iterations := state.iterations + 1 }

/-- A one-step strategy that never fails and counts one iteration per call: the
first call (at iteration count 0) lowers the error by 10, every later call raises
it by 1. -/
def exampleBounce (state : NonlinearOptimizerState Unit) :
    Except Exception (NonlinearOptimizerState Unit) :=
  Except.ok { values := state.values,
              error := if state.iterations = 0 then state.error - 10 else state.error + 1,
              iterations := state.iterations + 1 }

/-- Back ends that all succeed (with the only step there is, over `Unit`). -/
def exampleBackends : Backends Unit Unit Unit Unit Unit Unit Unit Unit :=
  { optimize := fun _ _ _ => Except.ok (),
    eliminateSequential := fun _ _ _ _ => Except.ok (),
    pcgSolver := fun _ _ => Except.ok (),
    subgraphSolver := fun _ _ _ => Except.ok (),
    fromNonlinearParams := fun _ => Except.ok (),
    linearSolverSolve := fun _ _ _ => Except.ok () }

/-- A configuration that selects the given solver family, with the given optional
ordering and iterative-solver parameters. -/
def exampleSolverParams (solverFamily : SolverFamily) (ordering : Option Unit)
    (iterativeParams : Option (IterativeOptimizationParameters Unit Unit Unit)) :
    NonlinearOptimizerParams Unit Unit Unit Unit Unit :=
  { maxIterations := 100, relativeErrorTol := 1e-5, absoluteErrorTol := 1e-5, errorTol := 0,
    verbosity := Verbosity.SILENT, ordering := ordering, solverFamily := solverFamily,
    eliminationFunction := EliminationFunction.CHOLESKY, orderingType := (),
    iterativeParams := iterativeParams }

/-- A one-step strategy that never fails, counts one iteration and leaves the
values and the error as they are. -/
def exampleKeep {V : Type} (state : NonlinearOptimizerState V) :
    Except Exception (NonlinearOptimizerState V) :=
  Except.ok { values := state.values, error := state.error,
              iterations := state.iterations + 1 }

/-- A one-step strategy whose first call (at iteration count 0) lowers the error by
10 and counts one iteration, and whose every later call throws. -/
def exampleFailSecond {V : Type} (state : NonlinearOptimizerState V) :
    Except Exception (NonlinearOptimizerState V) :=
  if state.iterations = 0 then
    Except.ok { values := state.values, error := state.error - 10,
                iterations := state.iterations + 1 }
  else Except.error (Exception.runtime_error "Indeterminant linear system")

/-- A state over lists of numbers as values. -/
def exampleListState (values : List Nat) (error : ℚ) (iterations : Nat) :
    NonlinearOptimizerState (List Nat) :=
  { values := values, error := error, iterations := iterations }

namespace machine

/-- An arithmetic to instantiate the theorems with: the exact difference and
quotient of two finite operands, with no rounding (what the machine returns
whenever that value is a double), the quotient of a finite operand by `+0.0` as
the machine gives it, and `NaN` when an operand is `NaN`, as the machine does.  On
an infinite operand or `-0.0`, which no instance below uses, it returns `NaN` as
well. -/
def exampleArithmetic : Arithmetic :=
  { sub := fun x y =>
      match x, y with
      | Double.finite a, Double.finite b => Double.finite (a - b)
      | _, _ => Double.nan,
    div := fun x y =>
      match x, y with
      | Double.finite a, Double.finite b =>
        if b = 0 then
          if a = 0 then Double.nan
          else if 0 < a then Double.posInf
          else Double.negInf
        else Double.finite (a / b)
      | _, _ => Double.nan }

/-- A configuration with budget 2, relative tolerance 0.125, absolute tolerance
0.5 and `errorTol = 0`, silent. -/
def exampleParams : NonlinearOptimizerParams :=
  { maxIterations := 2, relativeErrorTol := Double.finite (1 / 8),
    absoluteErrorTol := Double.finite (1 / 2), errorTol := Double.finite 0,
    verbosity := Verbosity.SILENT }

/-- A state with no values to speak of, the given error and iteration count. -/
def exampleState (error : Double) (iterations : Nat) : NonlinearOptimizerState Unit :=
  { values := (), error := error, iterations := iterations }

/-- A one-step strategy that never fails and counts one iteration per call: the
call at iteration count `k` sets the error to `5 - k`, whatever it was. -/
def exampleIterate (state : NonlinearOptimizerState Unit) :
    Except Exception (NonlinearOptimizerState Unit) :=
  Except.ok { values := state.values, error := Double.finite (5 - state.iterations),
              iterations := state.iterations + 1 }

end machine

/-! ## Lemmas on `checkConvergence` -/

/-- The verdict of `checkConvergence` as one boolean expression. -/
theorem checkConvergence_verdict {V : Type} (r a e c n : ℚ) (v : Verbosity) :
    (checkConvergence (V := V) r a e c n v).1 =
      (decide (n ≤ e) ||
        ((decide (r ≠ 0) && (divDouble (c - n) c).le r) || decide (c - n ≤ a))) := by
  unfold checkConvergence
  by_cases h : n ≤ e <;> simp [h]

/-! ## Theorems on `checkConvergence` -/

/-- C1: whenever `newError <= errorTol`, `checkConvergence` returns true, whatever
the other tolerances, `currentError` (zero included) and the verbosity are. -/
theorem checkConvergence_true_of_newError_le_errorTol {V : Type}
    (relativeErrorTol absoluteErrorTol errorTol currentError newError : ℚ)
    (verbosity : Verbosity) (h : newError ≤ errorTol) :
    (checkConvergence (V := V) relativeErrorTol absoluteErrorTol errorTol currentError
      newError verbosity).1 = true := by
  rw [checkConvergence_verdict]
  simp [h]

/-- C1 at `currentError = 0`, `newError = 1/2`, `errorTol = 1`, with no other test
that could succeed. -/
theorem checkConvergence_true_of_newError_le_errorTol_witness :
    ((1 / 2 : ℚ) ≤ 1) ∧
      (checkConvergence (V := Unit) 0 (-1) 1 0 (1 / 2) Verbosity.VALUES).1 = true :=
  ⟨by norm_num,
    checkConvergence_true_of_newError_le_errorTol 0 (-1) 1 0 (1 / 2) Verbosity.VALUES
      (by norm_num)⟩

/-- C5: from a state with `error() <= errorTol`, whatever the iteration count, the
budget and the strategy, `defaultOptimize` returns without a single call of
`iterate()` or `checkConvergence`, and the state is the one it started from. -/
theorem defaultOptimize_error_le_errorTol {V O T P S X : Type}
    (iterate : NonlinearOptimizerState V → Except Exception (NonlinearOptimizerState V))
    (params : NonlinearOptimizerParams O T P S X) (fuel : Nat)
    (state : NonlinearOptimizerState V) (h : state.error ≤ params.errorTol) :
    (defaultOptimize iterate params fuel state).status = Status.returned ∧
      (defaultOptimize iterate params fuel state).state = state ∧
      (defaultOptimize iterate params fuel state).trace = [] ∧
      invocations (defaultOptimize iterate params fuel state).trace = 0 := by
  simp [defaultOptimize, h, invocations]

/-- C5 at `initialError = 0.5`, `errorTol = 1.0` (budget 100, no pass of the loop
followed): zero steps, and the result is the initial state. -/
theorem defaultOptimize_error_le_errorTol_witness :
    ((exampleState 0.5 0).error ≤ (exampleParams 100 1e-5 1e-5 1.0).errorTol) ∧
      (defaultOptimize (exampleIterate (-1)) (exampleParams 100 1e-5 1e-5 1.0) 0
        (exampleState 0.5 0)).status = Status.returned ∧
      (defaultOptimize (exampleIterate (-1)) (exampleParams 100 1e-5 1e-5 1.0) 0
        (exampleState 0.5 0)).state = exampleState 0.5 0 ∧
      (defaultOptimize (exampleIterate (-1)) (exampleParams 100 1e-5 1e-5 1.0) 0
        (exampleState 0.5 0)).trace = [] ∧
      invocations (defaultOptimize (exampleIterate (-1)) (exampleParams 100 1e-5 1e-5 1.0) 0
        (exampleState 0.5 0)).trace = 0 :=
  have h : (exampleState 0.5 0).error ≤ (exampleParams 100 1e-5 1e-5 1.0).errorTol := by
    norm_num [exampleState, exampleParams]
  ⟨h, defaultOptimize_error_le_errorTol (exampleIterate (-1))
    (exampleParams 100 1e-5 1e-5 1.0) 0 (exampleState 0.5 0) h⟩

/-- C6: from a state with `iterations() >= maxIterations`, whatever its error and
the strategy, `defaultOptimize` returns without a single call of `iterate()` or
`checkConvergence`, and the state is the one it started from. -/
theorem defaultOptimize_iterations_ge_maxIterations {V O T P S X : Type}
    (iterate : NonlinearOptimizerState V → Except Exception (NonlinearOptimizerState V))
    (params : NonlinearOptimizerParams O T P S X) (fuel : Nat)
    (state : NonlinearOptimizerState V) (h : params.maxIterations ≤ state.iterations) :
    (defaultOptimize iterate params fuel state).status = Status.returned ∧
      (defaultOptimize iterate params fuel state).state = state ∧
      (defaultOptimize iterate params fuel state).trace = [] ∧
      invocations (defaultOptimize iterate params fuel state).trace = 0 := by
  unfold defaultOptimize
  by_cases herr : state.error ≤ params.errorTol <;> simp [herr, h, invocations]

/-- C6 at `maxIterations = 0`, `initialError = 50`, `errorTol = 1`: zero steps,
`iterations() == 0` and `error() == 50` at the end. -/
theorem defaultOptimize_iterations_ge_maxIterations_witness :
    ((exampleParams 0 1e-5 1e-5 1).maxIterations ≤ (exampleState 50 0).iterations) ∧
      (defaultOptimize (exampleIterate (-1)) (exampleParams 0 1e-5 1e-5 1) 10
        (exampleState 50 0)).status = Status.returned ∧
      invocations (defaultOptimize (exampleIterate (-1)) (exampleParams 0 1e-5 1e-5 1) 10
        (exampleState 50 0)).trace = 0 ∧
      (defaultOptimize (exampleIterate (-1)) (exampleParams 0 1e-5 1e-5 1) 10
        (exampleState 50 0)).state.iterations = 0 ∧
      (defaultOptimize (exampleIterate (-1)) (exampleParams 0 1e-5 1e-5 1) 10
        (exampleState 50 0)).state.error = 50 :=
  have h : (exampleParams 0 1e-5 1e-5 1).maxIterations ≤ (exampleState 50 0).iterations := by
    simp [exampleState, exampleParams]
  have key := defaultOptimize_iterations_ge_maxIterations (exampleIterate (-1))
    (exampleParams 0 1e-5 1e-5 1) 10 (exampleState 50 0) h
  ⟨h, key.1, key.2.2.2, by rw [key.2.1]; rfl, by rw [key.2.1]; rfl⟩


/-! ## Lemmas on the loop -/

/-- One pass of the loop in which `iterate()` succeeds, unfolded. -/
theorem iterativeLoop_succ_ok {V O T P S X : Type}
    (iterate : NonlinearOptimizerState V → Except Exception (NonlinearOptimizerState V))
    (params : NonlinearOptimizerParams O T P S X) (fuel : Nat)
    (state newState : NonlinearOptimizerState V) (hstep : iterate state = Except.ok newState) :
    (iterativeLoop iterate params (fuel + 1) state).trace =
        (if newState.iterations < params.maxIterations then
          if (checkConvergence (V := V) params.relativeErrorTol params.absoluteErrorTol
              params.errorTol state.error newState.error params.verbosity).1 = true then
            [Event.iterate state, Event.checkConvergence state.error newState.error true]
          else
            Event.iterate state :: Event.checkConvergence state.error newState.error false ::
              (iterativeLoop iterate params fuel newState).trace
        else [Event.iterate state]) ∧
      (iterativeLoop iterate params (fuel + 1) state).status =
        (if newState.iterations < params.maxIterations ∧
            (checkConvergence (V := V) params.relativeErrorTol params.absoluteErrorTol
              params.errorTol state.error newState.error params.verbosity).1 = false then
          (iterativeLoop iterate params fuel newState).status
        else Status.returned) ∧
      (iterativeLoop iterate params (fuel + 1) state).state =
        (if newState.iterations < params.maxIterations ∧
            (checkConvergence (V := V) params.relativeErrorTol params.absoluteErrorTol
              params.errorTol state.error newState.error params.verbosity).1 = false then
          (iterativeLoop iterate params fuel newState).state
        else newState) := by
  simp only [iterativeLoop, hstep]
  by_cases hmax : newState.iterations < params.maxIterations
  · cases hc : (checkConvergence (V := V) params.relativeErrorTol params.absoluteErrorTol
        params.errorTol state.error newState.error params.verbosity).1 <;> simp [hmax, hc]
  · simp [hmax]

/-- One pass of the loop in which `iterate()` throws, unfolded. -/
theorem iterativeLoop_succ_error {V O T P S X : Type}
    (iterate : NonlinearOptimizerState V → Except Exception (NonlinearOptimizerState V))
    (params : NonlinearOptimizerParams O T P S X) (fuel : Nat)
    (state : NonlinearOptimizerState V) (e : Exception) (hstep : iterate state = Except.error e) :
    iterativeLoop iterate params (fuel + 1) state =
      { status := Status.threw e, state := state, trace := [Event.iterate state],
        output := [] } := by
  simp only [iterativeLoop, hstep]

/-- The loop, entered below the budget with a strategy that counts one iteration
per call and with at least as many passes followed as the budget leaves, returns;
it has then called `iterate()` once per iteration counted, and stays within the
budget. -/
theorem iterativeLoop_counts {V O T P S X : Type}
    (iterate : NonlinearOptimizerState V → Except Exception (NonlinearOptimizerState V))
    (params : NonlinearOptimizerParams O T P S X)
    (hstep : ∀ s, ∃ s', iterate s = Except.ok s' ∧ s'.iterations = s.iterations + 1) :
    ∀ (fuel : Nat) (state : NonlinearOptimizerState V),
      state.iterations < params.maxIterations →
      params.maxIterations - state.iterations ≤ fuel →
      (iterativeLoop iterate params fuel state).status = Status.returned ∧
        invocations (iterativeLoop iterate params fuel state).trace + state.iterations =
          (iterativeLoop iterate params fuel state).state.iterations ∧
        (iterativeLoop iterate params fuel state).state.iterations ≤ params.maxIterations := by
  intro fuel
  induction fuel with
  | zero => intro state hlt hfuel; omega
  | succ fuel ih =>
    intro state hlt hfuel
    obtain ⟨s', hs', hit⟩ := hstep state
    obtain ⟨htrace, hstatus, hstate⟩ := iterativeLoop_succ_ok iterate params fuel state s' hs'
    rw [htrace, hstatus, hstate]
    by_cases hmax : s'.iterations < params.maxIterations
    · cases hc : (checkConvergence (V := V) params.relativeErrorTol params.absoluteErrorTol
          params.errorTol state.error s'.error params.verbosity).1
      · obtain ⟨h1, h2, h3⟩ := ih s' hmax (by omega)
        simp only [hmax, hc, true_and, if_true, invocations]
        exact ⟨h1, by omega, h3⟩
      · simp [hmax, invocations]
        omega
    · simp [hmax, invocations]
      omega


/-- Past the two entry checks, `defaultOptimize` ends as its loop does. -/
theorem defaultOptimize_enters_loop {V O T P S X : Type}
    (iterate : NonlinearOptimizerState V → Except Exception (NonlinearOptimizerState V))
    (params : NonlinearOptimizerParams O T P S X) (fuel : Nat)
    (state : NonlinearOptimizerState V) (herr : ¬ state.error ≤ params.errorTol)
    (hit : ¬ params.maxIterations ≤ state.iterations) :
    (defaultOptimize iterate params fuel state).status =
        (iterativeLoop iterate params fuel state).status ∧
      (defaultOptimize iterate params fuel state).state =
        (iterativeLoop iterate params fuel state).state ∧
      (defaultOptimize iterate params fuel state).trace =
        (iterativeLoop iterate params fuel state).trace := by
  simp [defaultOptimize, herr, hit]

/-- Before the loop is entered, `defaultOptimize` calls nothing. -/
theorem defaultOptimize_trace_eq {V O T P S X : Type}
    (iterate : NonlinearOptimizerState V → Except Exception (NonlinearOptimizerState V))
    (params : NonlinearOptimizerParams O T P S X) (fuel : Nat)
    (state : NonlinearOptimizerState V) :
    (defaultOptimize iterate params fuel state).trace = [] ∨
      ((defaultOptimize iterate params fuel state).status =
          (iterativeLoop iterate params fuel state).status ∧
        (defaultOptimize iterate params fuel state).state =
          (iterativeLoop iterate params fuel state).state ∧
        (defaultOptimize iterate params fuel state).trace =
          (iterativeLoop iterate params fuel state).trace) := by
  by_cases herr : state.error ≤ params.errorTol
  · left; simp [defaultOptimize, herr]
  · by_cases hit : params.maxIterations ≤ state.iterations
    · left; simp [defaultOptimize, herr, hit]
    · right; exact defaultOptimize_enters_loop iterate params fuel state herr hit

/-- C7: with a strategy that always succeeds and counts exactly one iteration per
call, from a state with `iterations() <= maxIterations`, `defaultOptimize` returns
(once at least `maxIterations - iterations()` passes are followed); the number of
calls of `iterate()` is the final iteration count minus the initial one, and the
final iteration count does not exceed `maxIterations`. -/
theorem defaultOptimize_terminates_within_budget {V O T P S X : Type}
    (iterate : NonlinearOptimizerState V → Except Exception (NonlinearOptimizerState V))
    (params : NonlinearOptimizerParams O T P S X) (fuel : Nat)
    (state : NonlinearOptimizerState V)
    (hstep : ∀ s, ∃ s', iterate s = Except.ok s' ∧ s'.iterations = s.iterations + 1)
    (hle : state.iterations ≤ params.maxIterations)
    (hfuel : params.maxIterations - state.iterations ≤ fuel) :
    (defaultOptimize iterate params fuel state).status = Status.returned ∧
      invocations (defaultOptimize iterate params fuel state).trace + state.iterations =
        (defaultOptimize iterate params fuel state).state.iterations ∧
      invocations (defaultOptimize iterate params fuel state).trace =
        (defaultOptimize iterate params fuel state).state.iterations - state.iterations ∧
      (defaultOptimize iterate params fuel state).state.iterations ≤ params.maxIterations := by
  by_cases herr : state.error ≤ params.errorTol
  · simp [defaultOptimize, herr, invocations, hle]
  · by_cases hit : params.maxIterations ≤ state.iterations
    · simp [defaultOptimize, herr, hit, invocations, hle]
    · obtain ⟨h1, h2, h3⟩ := defaultOptimize_enters_loop iterate params fuel state herr hit
      obtain ⟨k1, k2, k3⟩ :=
        iterativeLoop_counts iterate params hstep fuel state (not_le.mp hit) hfuel
      rw [h1, h2, h3]
      exact ⟨k1, k2, by omega, k3⟩


/-- C7 with budget 3, started at 0 iterations and error 100 with a strategy that
lowers the error by 1 per call, relative test off and tolerances 0: the run
returns after exactly 3 calls, at 3 iterations. -/
theorem defaultOptimize_terminates_within_budget_witness :
    (∀ s, ∃ s', exampleIterate (-1) s = Except.ok s' ∧ s'.iterations = s.iterations + 1) ∧
      ((exampleState 100 0).iterations ≤ (exampleParams 3 0 0 0).maxIterations) ∧
      ((exampleParams 3 0 0 0).maxIterations - (exampleState 100 0).iterations ≤ 3) ∧
      (defaultOptimize (exampleIterate (-1)) (exampleParams 3 0 0 0) 3
        (exampleState 100 0)).status = Status.returned ∧
      invocations (defaultOptimize (exampleIterate (-1)) (exampleParams 3 0 0 0) 3
        (exampleState 100 0)).trace + (exampleState 100 0).iterations =
        (defaultOptimize (exampleIterate (-1)) (exampleParams 3 0 0 0) 3
          (exampleState 100 0)).state.iterations ∧
      invocations (defaultOptimize (exampleIterate (-1)) (exampleParams 3 0 0 0) 3
        (exampleState 100 0)).trace =
        (defaultOptimize (exampleIterate (-1)) (exampleParams 3 0 0 0) 3
          (exampleState 100 0)).state.iterations - (exampleState 100 0).iterations ∧
      (defaultOptimize (exampleIterate (-1)) (exampleParams 3 0 0 0) 3
        (exampleState 100 0)).state.iterations ≤ (exampleParams 3 0 0 0).maxIterations :=
  have hstep : ∀ s, ∃ s', exampleIterate (-1) s = Except.ok s' ∧
      s'.iterations = s.iterations + 1 := fun _ => ⟨_, rfl, rfl⟩
  ⟨hstep, by simp [exampleState, exampleParams], by simp [exampleState, exampleParams],
    defaultOptimize_terminates_within_budget (exampleIterate (-1)) (exampleParams 3 0 0 0) 3
      (exampleState 100 0) hstep (by simp [exampleState, exampleParams])
      (by simp [exampleState, exampleParams])⟩

/-- C8: from a state with `error() > errorTol` and `iterations() < maxIterations`,
the first thing `defaultOptimize` does (as soon as one pass of the loop is
followed) is to call `iterate()` on that state: every call of `checkConvergence`
comes after it, whatever the tolerances are and whatever the strategy does. -/
theorem defaultOptimize_first_step {V O T P S X : Type}
    (iterate : NonlinearOptimizerState V → Except Exception (NonlinearOptimizerState V))
    (params : NonlinearOptimizerParams O T P S X) (fuel : Nat)
    (state : NonlinearOptimizerState V) (herr : params.errorTol < state.error)
    (hit : state.iterations < params.maxIterations) (hfuel : 0 < fuel) :
    (∃ rest, (defaultOptimize iterate params fuel state).trace = Event.iterate state :: rest) ∧
      1 ≤ invocations (defaultOptimize iterate params fuel state).trace := by
  obtain ⟨_, _, h3⟩ :=
    defaultOptimize_enters_loop iterate params fuel state (not_le.mpr herr) (not_le.mpr hit)
  obtain ⟨fuel, rfl⟩ : ∃ k, fuel = k + 1 := ⟨fuel - 1, by omega⟩
  rw [h3]
  cases hi : iterate state with
  | error e =>
    rw [iterativeLoop_succ_error iterate params fuel state e hi]
    exact ⟨⟨[], rfl⟩, by simp [invocations]⟩
  | ok n =>
    obtain ⟨htrace, _, _⟩ := iterativeLoop_succ_ok iterate params fuel state n hi
    rw [htrace]
    by_cases hmax : n.iterations < params.maxIterations
    · cases hc : (checkConvergence (V := V) params.relativeErrorTol params.absoluteErrorTol
          params.errorTol state.error n.error params.verbosity).1 <;>
        simp [hmax, invocations]
    · simp [hmax, invocations]

/-- C8 where `checkConvergence` would report convergence on the initial error
alone (absolute tolerance 1000, error 50 above `errorTol = 1`): the step is taken
all the same. -/
theorem defaultOptimize_first_step_witness :
    ((exampleParams 10 0 1000 1).errorTol < (exampleState 50 0).error) ∧
      ((exampleState 50 0).iterations < (exampleParams 10 0 1000 1).maxIterations) ∧
      ((checkConvergence (V := Unit) 0 1000 1 50 50 Verbosity.SILENT).1 = true) ∧
      ((∃ rest, (defaultOptimize (exampleIterate (-1)) (exampleParams 10 0 1000 1) 1
          (exampleState 50 0)).trace = Event.iterate (exampleState 50 0) :: rest) ∧
        1 ≤ invocations (defaultOptimize (exampleIterate (-1)) (exampleParams 10 0 1000 1) 1
          (exampleState 50 0)).trace) :=
  ⟨by norm_num [exampleState, exampleParams], by simp [exampleState, exampleParams],
    by rw [checkConvergence_verdict]; norm_num,
    defaultOptimize_first_step (exampleIterate (-1)) (exampleParams 10 0 1000 1) 1
      (exampleState 50 0) (by norm_num [exampleState, exampleParams])
      (by simp [exampleState, exampleParams]) (by decide)⟩

/-- C10: with the iterative solver family selected and `iterativeParams` null,
`solve` throws the `runtime_error` that asks for the cg parameter, for every
linear system, every ordering setting and every set of back ends, and calls no
back end. -/
theorem solve_iterative_without_iterativeParams {G D L O T P S X : Type}
    (backends : Backends G D L O T P S X) (gfg : G)
    (params : NonlinearOptimizerParams O T P S X)
    (hfamily : params.solverFamily = SolverFamily.ITERATIVE)
    (hnull : params.iterativeParams = none) :
    solve backends gfg params =
      ([], SolveResult.threw (Exception.runtime_error
        "NonlinearOptimizer::solve: cg parameter has to be assigned ...")) := by
  simp [solve, NonlinearOptimizerParams.isMultifrontal, NonlinearOptimizerParams.isSequential,
    NonlinearOptimizerParams.isIterative, hfamily, hnull]


/-- C10 with an ordering supplied and back ends that would all succeed. -/
theorem solve_iterative_without_iterativeParams_witness :
    ((exampleSolverParams SolverFamily.ITERATIVE (some ()) none).solverFamily =
        SolverFamily.ITERATIVE) ∧
      ((exampleSolverParams SolverFamily.ITERATIVE (some ()) none).iterativeParams = none) ∧
      solve exampleBackends () (exampleSolverParams SolverFamily.ITERATIVE (some ()) none) =
        ([], SolveResult.threw (Exception.runtime_error
          "NonlinearOptimizer::solve: cg parameter has to be assigned ...")) :=
  ⟨rfl, rfl,
    solve_iterative_without_iterativeParams exampleBackends ()
      (exampleSolverParams SolverFamily.ITERATIVE (some ()) none) rfl rfl⟩


/-- C11: with the iterative solver family, a Subgraph parameter object and no
ordering, `solve` throws the `runtime_error` whose message names the missing
ordering, for every linear system and every set of back ends; the subgraph solver
is not called (nor any other back end). -/
theorem solve_subgraph_without_ordering {G D L O T P S X : Type}
    (backends : Backends G D L O T P S X) (gfg : G)
    (params : NonlinearOptimizerParams O T P S X) (spcg : S)
    (hfamily : params.solverFamily = SolverFamily.ITERATIVE)
    (hparams : params.iterativeParams = some (IterativeOptimizationParameters.subgraph spcg))
    (hordering : params.ordering = none) :
    solve backends gfg params =
      ([], SolveResult.threw (Exception.runtime_error "SubgraphSolver needs an ordering")) := by
  simp [solve, NonlinearOptimizerParams.isMultifrontal, NonlinearOptimizerParams.isSequential,
    NonlinearOptimizerParams.isIterative, hfamily, hparams, hordering]

/-- C11 with back ends that would all succeed. -/
theorem solve_subgraph_without_ordering_witness :
    ((exampleSolverParams SolverFamily.ITERATIVE none
        (some (IterativeOptimizationParameters.subgraph ()))).solverFamily =
        SolverFamily.ITERATIVE) ∧
      ((exampleSolverParams SolverFamily.ITERATIVE none
        (some (IterativeOptimizationParameters.subgraph ()))).iterativeParams =
        some (IterativeOptimizationParameters.subgraph ())) ∧
      ((exampleSolverParams SolverFamily.ITERATIVE none
        (some (IterativeOptimizationParameters.subgraph ()))).ordering = none) ∧
      solve exampleBackends () (exampleSolverParams SolverFamily.ITERATIVE none
        (some (IterativeOptimizationParameters.subgraph ()))) =
        ([], SolveResult.threw (Exception.runtime_error "SubgraphSolver needs an ordering")) :=
  ⟨rfl, rfl, rfl,
    solve_subgraph_without_ordering exampleBackends ()
      (exampleSolverParams SolverFamily.ITERATIVE none
        (some (IterativeOptimizationParameters.subgraph ()))) () rfl rfl rfl⟩

/-- C12: with a solver family that is none of MULTIFRONTAL, SEQUENTIAL, ITERATIVE,
EXTERNAL_QR and EXTERNAL_CHOLESKY, `solve` throws the `runtime_error` "Optimization
parameter is invalid", for every linear system, ordering, `iterativeParams` and
set of back ends, and calls no back end. -/
theorem solve_unrecognized_family {G D L O T P S X : Type}
    (backends : Backends G D L O T P S X) (gfg : G)
    (params : NonlinearOptimizerParams O T P S X)
    (h1 : params.solverFamily ≠ SolverFamily.MULTIFRONTAL)
    (h2 : params.solverFamily ≠ SolverFamily.SEQUENTIAL)
    (h3 : params.solverFamily ≠ SolverFamily.ITERATIVE)
    (h4 : params.solverFamily ≠ SolverFamily.EXTERNAL_QR)
    (h5 : params.solverFamily ≠ SolverFamily.EXTERNAL_CHOLESKY) :
    solve backends gfg params =
      ([], SolveResult.threw (Exception.runtime_error
        "NonlinearOptimizer::solve: Optimization parameter is invalid")) := by
  simp [solve, NonlinearOptimizerParams.isMultifrontal, NonlinearOptimizerParams.isSequential,
    NonlinearOptimizerParams.isIterative, NonlinearOptimizerParams.isEigenQR,
    NonlinearOptimizerParams.isEigenCholesky, h1, h2, h3, h4, h5]

/-- C12 with an ordering and a PCG parameter object supplied. -/
theorem solve_unrecognized_family_witness :
    solve exampleBackends () (exampleSolverParams (SolverFamily.unrecognized 5) (some ())
        (some (IterativeOptimizationParameters.pcg ()))) =
      ([], SolveResult.threw (Exception.runtime_error
        "NonlinearOptimizer::solve: Optimization parameter is invalid")) :=
  solve_unrecognized_family exampleBackends ()
    (exampleSolverParams (SolverFamily.unrecognized 5) (some ())
      (some (IterativeOptimizationParameters.pcg ())))
    (by simp [exampleSolverParams]) (by simp [exampleSolverParams])
    (by simp [exampleSolverParams]) (by simp [exampleSolverParams])
    (by simp [exampleSolverParams])

/-- C13: with the iterative solver family and a parameter object that is neither
a PCG nor a Subgraph configuration, `solve` throws the `runtime_error` "special cg
parameter type is not handled", with or without an ordering, and calls no back
end. -/
theorem solve_unhandled_iterativeParams {G D L O T P S X : Type}
    (backends : Backends G D L O T P S X) (gfg : G)
    (params : NonlinearOptimizerParams O T P S X) (x : X)
    (hfamily : params.solverFamily = SolverFamily.ITERATIVE)
    (hparams : params.iterativeParams = some (IterativeOptimizationParameters.other x)) :
    solve backends gfg params =
      ([], SolveResult.threw (Exception.runtime_error
        "NonlinearOptimizer::solve: special cg parameter type is not handled in LM solver ...")) := by
  simp [solve, NonlinearOptimizerParams.isMultifrontal, NonlinearOptimizerParams.isSequential,
    NonlinearOptimizerParams.isIterative, hfamily, hparams]

/-- C13 with an ordering supplied and with none. -/
theorem solve_unhandled_iterativeParams_witness :
    solve exampleBackends () (exampleSolverParams SolverFamily.ITERATIVE (some ())
        (some (IterativeOptimizationParameters.other ()))) =
      ([], SolveResult.threw (Exception.runtime_error
        "NonlinearOptimizer::solve: special cg parameter type is not handled in LM solver ...")) ∧
    solve exampleBackends () (exampleSolverParams SolverFamily.ITERATIVE none
        (some (IterativeOptimizationParameters.other ()))) =
      ([], SolveResult.threw (Exception.runtime_error
        "NonlinearOptimizer::solve: special cg parameter type is not handled in LM solver ...")) :=
  ⟨solve_unhandled_iterativeParams exampleBackends ()
      (exampleSolverParams SolverFamily.ITERATIVE (some ())
        (some (IterativeOptimizationParameters.other ()))) () rfl rfl,
    solve_unhandled_iterativeParams exampleBackends ()
      (exampleSolverParams SolverFamily.ITERATIVE none
        (some (IterativeOptimizationParameters.other ()))) () rfl rfl⟩

/-- C14: with EXTERNAL_QR selected and no ordering set, `solve` builds the external
solver and then reads through the empty optional `*optionalOrdering`: the solver's
`solve` is never called and no step is returned, although the back ends would all
succeed.  The same holds with EXTERNAL_CHOLESKY. -/
theorem solve_external_without_ordering :
    solve exampleBackends () (exampleSolverParams SolverFamily.EXTERNAL_QR none none) =
        ([BackendCall.fromNonlinearParams], SolveResult.undefinedBehaviour) ∧
      solve exampleBackends () (exampleSolverParams SolverFamily.EXTERNAL_CHOLESKY none none) =
        ([BackendCall.fromNonlinearParams], SolveResult.undefinedBehaviour) := by
  constructor <;> rfl


/-- The optional ordering `solve` builds from `params.ordering` is that ordering,
present or absent. -/
theorem optionalOrdering_eq {O : Type} (ordering : Option O) :
    (match ordering with
      | some o => some o
      | none => none) = ordering := by
  cases ordering <;> rfl

/-- C19: `solve` hands a consistent configuration to the back end it names and
ends exactly as that back end does.  MULTIFRONTAL: the multifrontal elimination
on (system, optional ordering, factorization kind); SEQUENTIAL: the sequential
elimination, given the ordering-strategy selector as well; ITERATIVE with a PCG
configuration: the PCG solver.  This holds whether the ordering is present or
absent and, for the two direct families, whatever `iterativeParams` is; so a step
the back end returns is the step `solve` returns, and `solve` throws nothing of
its own. -/
theorem solve_dispatch {G D L O T P S X : Type}
    (backends : Backends G D L O T P S X) (gfg : G)
    (params : NonlinearOptimizerParams O T P S X) :
    (params.solverFamily = SolverFamily.MULTIFRONTAL →
      solve backends gfg params =
        ([BackendCall.optimize],
          SolveResult.ofExcept
            (backends.optimize gfg params.ordering params.eliminationFunction))) ∧
    (params.solverFamily = SolverFamily.SEQUENTIAL →
      solve backends gfg params =
        ([BackendCall.eliminateSequential],
          SolveResult.ofExcept
            (backends.eliminateSequential gfg params.ordering params.eliminationFunction
              params.orderingType))) ∧
    (∀ pcg : P, params.solverFamily = SolverFamily.ITERATIVE →
      params.iterativeParams = some (IterativeOptimizationParameters.pcg pcg) →
      solve backends gfg params =
        ([BackendCall.PCGSolver], SolveResult.ofExcept (backends.pcgSolver pcg gfg))) ∧
    (∀ delta : D,
      (params.solverFamily = SolverFamily.MULTIFRONTAL →
        backends.optimize gfg params.ordering params.eliminationFunction = Except.ok delta →
        (solve backends gfg params).2 = SolveResult.returned delta) ∧
      (params.solverFamily = SolverFamily.SEQUENTIAL →
        backends.eliminateSequential gfg params.ordering params.eliminationFunction
          params.orderingType = Except.ok delta →
        (solve backends gfg params).2 = SolveResult.returned delta) ∧
      (∀ pcg : P, params.solverFamily = SolverFamily.ITERATIVE →
        params.iterativeParams = some (IterativeOptimizationParameters.pcg pcg) →
        backends.pcgSolver pcg gfg = Except.ok delta →
        (solve backends gfg params).2 = SolveResult.returned delta)) := by
  have hm : params.solverFamily = SolverFamily.MULTIFRONTAL →
      solve backends gfg params =
        ([BackendCall.optimize],
          SolveResult.ofExcept
            (backends.optimize gfg params.ordering params.eliminationFunction)) := by
    intro h
    simp [solve, NonlinearOptimizerParams.isMultifrontal, h, optionalOrdering_eq]
  have hs : params.solverFamily = SolverFamily.SEQUENTIAL →
      solve backends gfg params =
        ([BackendCall.eliminateSequential],
          SolveResult.ofExcept
            (backends.eliminateSequential gfg params.ordering params.eliminationFunction
              params.orderingType)) := by
    intro h
    simp [solve, NonlinearOptimizerParams.isMultifrontal,
      NonlinearOptimizerParams.isSequential, h, optionalOrdering_eq]
  have hi : ∀ pcg : P, params.solverFamily = SolverFamily.ITERATIVE →
      params.iterativeParams = some (IterativeOptimizationParameters.pcg pcg) →
      solve backends gfg params =
        ([BackendCall.PCGSolver], SolveResult.ofExcept (backends.pcgSolver pcg gfg)) := by
    intro pcg h hp
    simp [solve, NonlinearOptimizerParams.isMultifrontal,
      NonlinearOptimizerParams.isSequential, NonlinearOptimizerParams.isIterative, h, hp]
  refine ⟨hm, hs, hi, fun delta => ⟨?_, ?_, ?_⟩⟩
  · intro h hb
    rw [hm h, hb]; rfl
  · intro h hb
    rw [hs h, hb]; rfl
  · intro pcg h hp hb
    rw [hi pcg h hp, hb]; rfl

/-- C19 on the three routes, each with no ordering, the direct families with a
Subgraph parameter object that the iterative family would reject for want of an
ordering. -/
theorem solve_dispatch_witness :
    solve exampleBackends () (exampleSolverParams SolverFamily.MULTIFRONTAL none
        (some (IterativeOptimizationParameters.subgraph ()))) =
      ([BackendCall.optimize], SolveResult.returned ()) ∧
    solve exampleBackends () (exampleSolverParams SolverFamily.SEQUENTIAL none
        (some (IterativeOptimizationParameters.subgraph ()))) =
      ([BackendCall.eliminateSequential], SolveResult.returned ()) ∧
    solve exampleBackends () (exampleSolverParams SolverFamily.ITERATIVE none
        (some (IterativeOptimizationParameters.pcg ()))) =
      ([BackendCall.PCGSolver], SolveResult.returned ()) :=
  ⟨(solve_dispatch exampleBackends () (exampleSolverParams SolverFamily.MULTIFRONTAL none
      (some (IterativeOptimizationParameters.subgraph ())))).1 rfl,
    (solve_dispatch exampleBackends () (exampleSolverParams SolverFamily.SEQUENTIAL none
      (some (IterativeOptimizationParameters.subgraph ())))).2.1 rfl,
    (solve_dispatch exampleBackends () (exampleSolverParams SolverFamily.ITERATIVE none
      (some (IterativeOptimizationParameters.pcg ())))).2.2.1 () rfl rfl⟩


/-! ## Theorems on `optimizeSafely` and on failures of the strategy -/

/-- In the loop, a call of `iterate()` that throws is the last thing the loop
does: the exception leaves the loop, with the state as it was before the call. -/
theorem iterativeLoop_stops_on_throw {V O T P S X : Type}
    (iterate : NonlinearOptimizerState V → Except Exception (NonlinearOptimizerState V))
    (params : NonlinearOptimizerParams O T P S X)
    (s : NonlinearOptimizerState V) (e : Exception) (hstep : iterate s = Except.error e) :
    ∀ (fuel : Nat) (state : NonlinearOptimizerState V) (pre post : List (Event V)),
      (iterativeLoop iterate params fuel state).trace = pre ++ Event.iterate s :: post →
      (iterativeLoop iterate params fuel state).status = Status.threw e ∧
        (iterativeLoop iterate params fuel state).state = s ∧ post = [] := by
  intro fuel
  induction fuel with
  | zero => intro state pre post h; simp [iterativeLoop] at h
  | succ fuel ih =>
    intro state pre post h
    cases hi : iterate state with
    | error e' =>
      rw [iterativeLoop_succ_error iterate params fuel state e' hi] at h ⊢
      rcases pre with _ | ⟨a, pre⟩
      · simp at h
        obtain ⟨hs, hpost⟩ := h
        subst hs
        rw [hstep] at hi
        cases hi
        exact ⟨rfl, rfl, hpost⟩
      · simp at h
    | ok n =>
      obtain ⟨htrace, hstatus, hstate⟩ := iterativeLoop_succ_ok iterate params fuel state n hi
      rw [htrace] at h
      rw [hstatus, hstate]
      by_cases hmax : n.iterations < params.maxIterations
      · cases hc : (checkConvergence (V := V) params.relativeErrorTol params.absoluteErrorTol
            params.errorTol state.error n.error params.verbosity).1
        · simp only [hmax, hc, if_true, Bool.false_eq_true, if_false, true_and] at h ⊢
          rcases pre with _ | ⟨a, pre⟩
          · simp at h
            rw [h.1, hstep] at hi
            cases hi
          · rcases pre with _ | ⟨b, pre⟩
            · simp at h
            · simp at h
              exact ih n pre post h.2.2
        · simp only [hmax, hc, if_true, true_and] at h ⊢
          rcases pre with _ | ⟨a, pre⟩
          · simp at h
            rw [h.1, hstep] at hi
            cases hi
          · rcases pre with _ | ⟨b, pre⟩
            · simp at h
            · simp at h
      · simp only [hmax, if_false, false_and] at h ⊢
        rcases pre with _ | ⟨a, pre⟩
        · simp at h
          rw [h.1, hstep] at hi
          cases hi
        · simp at h

/-- C15 (as the code has it): `optimizeSafely` returns the designated empty
`Values` whenever `defaultOptimize` fails, and exactly `values()` of the final
state when it returns; so the result is the empty `Values` if and only if the run
failed or the final `values()` are themselves empty.  A run that ends (by
returning or by throwing) always gives `optimizeSafely` a value to return: no
failure reaches its caller. -/
theorem optimizeSafely_result {V O T P S X : Type} (empty : V)
    (iterate : NonlinearOptimizerState V → Except Exception (NonlinearOptimizerState V))
    (params : NonlinearOptimizerParams O T P S X) (fuel : Nat)
    (state : NonlinearOptimizerState V) :
    (∀ e, (defaultOptimize iterate params fuel state).status = Status.threw e →
      optimizeSafely empty iterate params fuel state = some empty) ∧
    ((defaultOptimize iterate params fuel state).status = Status.returned →
      optimizeSafely empty iterate params fuel state =
        some (defaultOptimize iterate params fuel state).state.values) ∧
    ((defaultOptimize iterate params fuel state).status ≠ Status.outOfFuel →
      ∃ v, optimizeSafely empty iterate params fuel state = some v) ∧
    (optimizeSafely empty iterate params fuel state = some empty ↔
      ((∃ e, (defaultOptimize iterate params fuel state).status = Status.threw e) ∨
        ((defaultOptimize iterate params fuel state).status = Status.returned ∧
          (defaultOptimize iterate params fuel state).state.values = empty))) := by
  unfold optimizeSafely
  cases hs : (defaultOptimize iterate params fuel state).status <;> simp [hs]

/-- C15 on a run whose second step throws: the values `[4, 2]` of the state are
dropped and the empty list is returned. -/
theorem optimizeSafely_result_witness :
    (defaultOptimize exampleFailSecond (exampleParams 10 0 1e-5 0) 10
        (exampleListState [4, 2] 100 0)).status =
      Status.threw (Exception.runtime_error "Indeterminant linear system") ∧
    optimizeSafely [] exampleFailSecond (exampleParams 10 0 1e-5 0) 10
      (exampleListState [4, 2] 100 0) = some [] :=
  have hs : (defaultOptimize exampleFailSecond (exampleParams 10 0 1e-5 0) 10
        (exampleListState [4, 2] 100 0)).status =
      Status.threw (Exception.runtime_error "Indeterminant linear system") := by
    norm_num [defaultOptimize, iterativeLoop, exampleFailSecond, exampleParams,
      exampleListState, checkConvergence_verdict, divDouble, ExtDouble.le]
  ⟨hs, (optimizeSafely_result [] exampleFailSecond (exampleParams 10 0 1e-5 0) 10
    (exampleListState [4, 2] 100 0)).1 _ hs⟩

/-- C15 as stated fails: on a problem with no variables (empty values, error 0
within `errorTol = 1`) the run returns at once without failing, and
`optimizeSafely` returns `values()`, which is the empty `Values`. -/
theorem optimizeSafely_empty_without_failure :
    ¬ (optimizeSafely [] exampleKeep (exampleParams 100 1e-5 1e-5 1) 10
          (exampleListState [] 0 0) = some [] ↔
        ∃ e, (defaultOptimize exampleKeep (exampleParams 100 1e-5 1e-5 1) 10
          (exampleListState [] 0 0)).status = Status.threw e) := by
  have hs : (defaultOptimize exampleKeep (exampleParams 100 1e-5 1e-5 1) 10
      (exampleListState [] 0 0)).status = Status.returned := by
    norm_num [defaultOptimize, exampleParams, exampleListState]
  have hv : (defaultOptimize exampleKeep (exampleParams 100 1e-5 1e-5 1) 10
      (exampleListState [] 0 0)).state.values = [] := by
    norm_num [defaultOptimize, exampleParams, exampleListState]
  have ho : optimizeSafely [] exampleKeep (exampleParams 100 1e-5 1e-5 1) 10
      (exampleListState [] 0 0) = some [] := by
    unfold optimizeSafely
    simp only [hs, hv]
  intro h
  obtain ⟨e, he⟩ := h.mp ho
  rw [hs] at he
  cases he

/-- C16: if a call of `iterate()` made by `defaultOptimize` throws, the exception
leaves `defaultOptimize` (which therefore does not return), nothing follows that
call (no further step, no convergence check), and the state is the one the failed
call started from. -/
theorem defaultOptimize_surfaces_failure {V O T P S X : Type}
    (iterate : NonlinearOptimizerState V → Except Exception (NonlinearOptimizerState V))
    (params : NonlinearOptimizerParams O T P S X) (fuel : Nat)
    (state : NonlinearOptimizerState V) (pre post : List (Event V))
    (s : NonlinearOptimizerState V) (e : Exception)
    (htrace : (defaultOptimize iterate params fuel state).trace =
      pre ++ Event.iterate s :: post)
    (hstep : iterate s = Except.error e) :
    (defaultOptimize iterate params fuel state).status = Status.threw e ∧
      (defaultOptimize iterate params fuel state).status ≠ Status.returned ∧
      post = [] ∧ invocations post = 0 ∧
      (defaultOptimize iterate params fuel state).state = s := by
  rcases defaultOptimize_trace_eq iterate params fuel state with h | ⟨h1, h2, h3⟩
  · rw [h] at htrace
    simp at htrace
  · rw [h3] at htrace
    obtain ⟨k1, k2, k3⟩ :=
      iterativeLoop_stops_on_throw iterate params s e hstep fuel state pre post htrace
    rw [h1, h2, k1]
    refine ⟨rfl, by simp, k3, by rw [k3]; rfl, k2⟩

/-- C16 on a run started at error 100 whose first step succeeds (error 90, no
convergence) and whose second step throws. -/
theorem defaultOptimize_surfaces_failure_witness :
    ((defaultOptimize exampleFailSecond (exampleParams 10 0 1e-5 0) 10
        (exampleState 100 0)).trace =
      [Event.iterate (exampleState 100 0), Event.checkConvergence 100 90 false] ++
        Event.iterate (exampleState 90 1) :: []) ∧
    (exampleFailSecond (exampleState 90 1) =
      Except.error (Exception.runtime_error "Indeterminant linear system")) ∧
    ((defaultOptimize exampleFailSecond (exampleParams 10 0 1e-5 0) 10
        (exampleState 100 0)).status =
        Status.threw (Exception.runtime_error "Indeterminant linear system") ∧
      (defaultOptimize exampleFailSecond (exampleParams 10 0 1e-5 0) 10
        (exampleState 100 0)).status ≠ Status.returned ∧
      ([] : List (Event Unit)) = [] ∧ invocations ([] : List (Event Unit)) = 0 ∧
      (defaultOptimize exampleFailSecond (exampleParams 10 0 1e-5 0) 10
        (exampleState 100 0)).state = exampleState 90 1) :=
  have htrace : (defaultOptimize exampleFailSecond (exampleParams 10 0 1e-5 0) 10
        (exampleState 100 0)).trace =
      [Event.iterate (exampleState 100 0), Event.checkConvergence 100 90 false] ++
        Event.iterate (exampleState 90 1) :: [] := by
    norm_num [defaultOptimize, iterativeLoop, exampleFailSecond, exampleParams, exampleState,
      checkConvergence_verdict, divDouble, ExtDouble.le]
  have hstep : exampleFailSecond (exampleState 90 1) =
      Except.error (Exception.runtime_error "Indeterminant linear system") := by
    simp [exampleFailSecond, exampleState]
  ⟨htrace, hstep,
    defaultOptimize_surfaces_failure exampleFailSecond (exampleParams 10 0 1e-5 0) 10
      (exampleState 100 0) _ _ _ _ htrace hstep⟩


/-! ## Theorems on verbosity, the stopping condition and the division -/

/-- The loop makes the same calls and ends in the same way and state under two
configurations that differ only in verbosity. -/
theorem iterativeLoop_verbosity {V O T P S X : Type}
    (iterate : NonlinearOptimizerState V → Except Exception (NonlinearOptimizerState V))
    (params : NonlinearOptimizerParams O T P S X) (v1 v2 : Verbosity) :
    ∀ (fuel : Nat) (state : NonlinearOptimizerState V),
      (iterativeLoop iterate { params with verbosity := v1 } fuel state).status =
          (iterativeLoop iterate { params with verbosity := v2 } fuel state).status ∧
        (iterativeLoop iterate { params with verbosity := v1 } fuel state).state =
          (iterativeLoop iterate { params with verbosity := v2 } fuel state).state ∧
        (iterativeLoop iterate { params with verbosity := v1 } fuel state).trace =
          (iterativeLoop iterate { params with verbosity := v2 } fuel state).trace := by
  intro fuel
  induction fuel with
  | zero => intro state; simp [iterativeLoop]
  | succ fuel ih =>
    intro state
    cases hi : iterate state with
    | error e =>
      rw [iterativeLoop_succ_error iterate _ fuel state e hi,
        iterativeLoop_succ_error iterate _ fuel state e hi]
      exact ⟨rfl, rfl, rfl⟩
    | ok n =>
      obtain ⟨ht1, hs1, hst1⟩ :=
        iterativeLoop_succ_ok iterate { params with verbosity := v1 } fuel state n hi
      obtain ⟨ht2, hs2, hst2⟩ :=
        iterativeLoop_succ_ok iterate { params with verbosity := v2 } fuel state n hi
      obtain ⟨i1, i2, i3⟩ := ih n
      rw [ht1, hs1, hst1, ht2, hs2, hst2, i1, i2, i3]
      simp [checkConvergence_verdict]

/-- C17: the verbosity changes no outcome.  `checkConvergence` returns the same
verdict under any two verbosities on the same tolerances and errors; and under two
configurations that differ only in verbosity, `defaultOptimize` from the same
state with the same strategy ends in the same way and in the same state, after the
same calls of `iterate()` and `checkConvergence` (so after the same number of
steps). -/
theorem verbosity_changes_no_outcome {V O T P S X : Type}
    (iterate : NonlinearOptimizerState V → Except Exception (NonlinearOptimizerState V))
    (params : NonlinearOptimizerParams O T P S X) (v1 v2 : Verbosity) (fuel : Nat)
    (state : NonlinearOptimizerState V) (currentError newError : ℚ) :
    (checkConvergence (V := V) params.relativeErrorTol params.absoluteErrorTol params.errorTol
        currentError newError v1).1 =
      (checkConvergence (V := V) params.relativeErrorTol params.absoluteErrorTol
        params.errorTol currentError newError v2).1 ∧
    (defaultOptimize iterate { params with verbosity := v1 } fuel state).status =
      (defaultOptimize iterate { params with verbosity := v2 } fuel state).status ∧
    (defaultOptimize iterate { params with verbosity := v1 } fuel state).state =
      (defaultOptimize iterate { params with verbosity := v2 } fuel state).state ∧
    (defaultOptimize iterate { params with verbosity := v1 } fuel state).trace =
      (defaultOptimize iterate { params with verbosity := v2 } fuel state).trace ∧
    invocations (defaultOptimize iterate { params with verbosity := v1 } fuel state).trace =
      invocations (defaultOptimize iterate { params with verbosity := v2 } fuel state).trace := by
  have hrun : (defaultOptimize iterate { params with verbosity := v1 } fuel state).status =
        (defaultOptimize iterate { params with verbosity := v2 } fuel state).status ∧
      (defaultOptimize iterate { params with verbosity := v1 } fuel state).state =
        (defaultOptimize iterate { params with verbosity := v2 } fuel state).state ∧
      (defaultOptimize iterate { params with verbosity := v1 } fuel state).trace =
        (defaultOptimize iterate { params with verbosity := v2 } fuel state).trace := by
    by_cases herr : state.error ≤ params.errorTol
    · simp [defaultOptimize, herr]
    · by_cases hit : params.maxIterations ≤ state.iterations
      · simp [defaultOptimize, herr, hit]
      · obtain ⟨a1, a2, a3⟩ := defaultOptimize_enters_loop iterate
          { params with verbosity := v1 } fuel state herr hit
        obtain ⟨b1, b2, b3⟩ := defaultOptimize_enters_loop iterate
          { params with verbosity := v2 } fuel state herr hit
        rw [a1, a2, a3, b1, b2, b3]
        exact iterativeLoop_verbosity iterate params v1 v2 fuel state
  refine ⟨?_, hrun.1, hrun.2.1, hrun.2.2, by rw [hrun.2.2]⟩
  simp only [checkConvergence_verdict]


/-- When the loop returns, its last call of `iterate()` produced the final state,
and either the budget is reached or `checkConvergence`, on the error before that
call and the final error, is true. -/
theorem iterativeLoop_returned {V O T P S X : Type}
    (iterate : NonlinearOptimizerState V → Except Exception (NonlinearOptimizerState V))
    (params : NonlinearOptimizerParams O T P S X) :
    ∀ (fuel : Nat) (state : NonlinearOptimizerState V),
      (iterativeLoop iterate params fuel state).status = Status.returned →
      ∃ (pre post : List (Event V)) (last : NonlinearOptimizerState V),
        (iterativeLoop iterate params fuel state).trace = pre ++ Event.iterate last :: post ∧
        invocations post = 0 ∧
        iterate last = Except.ok (iterativeLoop iterate params fuel state).state ∧
        (params.maxIterations ≤ (iterativeLoop iterate params fuel state).state.iterations ∨
          (checkConvergence (V := V) params.relativeErrorTol params.absoluteErrorTol
            params.errorTol last.error (iterativeLoop iterate params fuel state).state.error
            params.verbosity).1 = true) := by
  intro fuel
  induction fuel with
  | zero => intro state h; simp [iterativeLoop] at h
  | succ fuel ih =>
    intro state h
    cases hi : iterate state with
    | error e =>
      rw [iterativeLoop_succ_error iterate params fuel state e hi] at h
      simp at h
    | ok n =>
      obtain ⟨htrace, hstatus, hstate⟩ := iterativeLoop_succ_ok iterate params fuel state n hi
      rw [hstatus] at h
      rw [htrace, hstate]
      by_cases hmax : n.iterations < params.maxIterations
      · cases hc : (checkConvergence (V := V) params.relativeErrorTol params.absoluteErrorTol
            params.errorTol state.error n.error params.verbosity).1
        · simp only [hmax, hc, if_true, Bool.false_eq_true, if_false, true_and] at h ⊢
          obtain ⟨pre, post, last, k1, k2, k3, k4⟩ := ih n h
          exact ⟨Event.iterate state :: Event.checkConvergence state.error n.error false :: pre,
            post, last, by rw [k1]; rfl, k2, k3, k4⟩
        · simp only [hmax, hc, if_true, true_and, Bool.true_eq_false, if_false]
          exact ⟨[], [Event.checkConvergence state.error n.error true], state, rfl, rfl, hi,
            Or.inr hc⟩
      · simp only [hmax, if_false, false_and]
        exact ⟨[], [], state, rfl, rfl, hi, Or.inl (not_lt.mp hmax)⟩

/-- In the loop, a call of `iterate()` that another call follows succeeded, left
the iteration count below the budget, and was judged not converged. -/
theorem iterativeLoop_continued {V O T P S X : Type}
    (iterate : NonlinearOptimizerState V → Except Exception (NonlinearOptimizerState V))
    (params : NonlinearOptimizerParams O T P S X) :
    ∀ (fuel : Nat) (state : NonlinearOptimizerState V) (pre post : List (Event V))
      (s : NonlinearOptimizerState V),
      (iterativeLoop iterate params fuel state).trace = pre ++ Event.iterate s :: post →
      1 ≤ invocations post →
      ∃ s', iterate s = Except.ok s' ∧ s'.iterations < params.maxIterations ∧
        (checkConvergence (V := V) params.relativeErrorTol params.absoluteErrorTol
          params.errorTol s.error s'.error params.verbosity).1 = false ∧
        ∃ rest, post = Event.checkConvergence s.error s'.error false :: rest := by
  intro fuel
  induction fuel with
  | zero => intro state pre post s h; simp [iterativeLoop] at h
  | succ fuel ih =>
    intro state pre post s h hpost
    cases hi : iterate state with
    | error e =>
      rw [iterativeLoop_succ_error iterate params fuel state e hi] at h
      rcases pre with _ | ⟨a, pre⟩
      · simp at h
        rw [h.2] at hpost
        simp [invocations] at hpost
      · simp at h
    | ok n =>
      obtain ⟨htrace, _, _⟩ := iterativeLoop_succ_ok iterate params fuel state n hi
      rw [htrace] at h
      by_cases hmax : n.iterations < params.maxIterations
      · cases hc : (checkConvergence (V := V) params.relativeErrorTol params.absoluteErrorTol
            params.errorTol state.error n.error params.verbosity).1
        · simp only [hmax, hc, if_true, Bool.false_eq_true, if_false] at h
          rcases pre with _ | ⟨a, pre⟩
          · simp at h
            obtain ⟨hs, hp⟩ := h
            subst hs
            exact ⟨n, hi, hmax, hc, _, hp.symm⟩
          · rcases pre with _ | ⟨b, pre⟩
            · simp at h
            · simp at h
              exact ih n pre post s h.2.2 hpost
        · simp only [hmax, hc, if_true] at h
          rcases pre with _ | ⟨a, pre⟩
          · simp at h
            rw [← h.2] at hpost
            simp [invocations] at hpost
          · rcases pre with _ | ⟨b, pre⟩
            · simp at h
            · simp at h
      · simp only [hmax, if_false] at h
        rcases pre with _ | ⟨a, pre⟩
        · simp at h
          rw [h.2] at hpost
          simp [invocations] at hpost
        · simp at h

/-- The run of `exampleBounce` from error 100 with budget 10: two steps, the second
of which raises the error from 90 to 91 and ends the run. -/
theorem exampleBounce_run :
    (defaultOptimize exampleBounce (exampleParams 10 0 1e-5 0) 10 (exampleState 100 0)).trace =
        [Event.iterate (exampleState 100 0), Event.checkConvergence 100 90 false,
          Event.iterate (exampleState 90 1), Event.checkConvergence 90 91 true] ∧
      (defaultOptimize exampleBounce (exampleParams 10 0 1e-5 0) 10
        (exampleState 100 0)).status = Status.returned ∧
      (defaultOptimize exampleBounce (exampleParams 10 0 1e-5 0) 10
        (exampleState 100 0)).state = exampleState 91 2 := by
  refine ⟨?_, ?_, ?_⟩ <;>
    norm_num [defaultOptimize, iterativeLoop, exampleBounce, exampleParams, exampleState,
      checkConvergence_verdict, divDouble, ExtDouble.le]

/-- C18: the stopping condition of the loop.  When `defaultOptimize` returns after
at least one call of `iterate()`, the last call produced the final state, and
either `iterations() >= maxIterations` or `checkConvergence` is true on the error
just before that call and the final error.  Conversely every call of `iterate()`
that another call follows succeeded, left `iterations() < maxIterations`, and was
followed at once by a call of `checkConvergence` that reported not-converged. -/
theorem defaultOptimize_stopping_condition {V O T P S X : Type}
    (iterate : NonlinearOptimizerState V → Except Exception (NonlinearOptimizerState V))
    (params : NonlinearOptimizerParams O T P S X) (fuel : Nat)
    (state : NonlinearOptimizerState V) :
    ((defaultOptimize iterate params fuel state).status = Status.returned →
      1 ≤ invocations (defaultOptimize iterate params fuel state).trace →
      ∃ (pre post : List (Event V)) (last : NonlinearOptimizerState V),
        (defaultOptimize iterate params fuel state).trace =
          pre ++ Event.iterate last :: post ∧
        invocations post = 0 ∧
        iterate last = Except.ok (defaultOptimize iterate params fuel state).state ∧
        (params.maxIterations ≤ (defaultOptimize iterate params fuel state).state.iterations ∨
          (checkConvergence (V := V) params.relativeErrorTol params.absoluteErrorTol
            params.errorTol last.error (defaultOptimize iterate params fuel state).state.error
            params.verbosity).1 = true)) ∧
    (∀ (pre post : List (Event V)) (s : NonlinearOptimizerState V),
      (defaultOptimize iterate params fuel state).trace = pre ++ Event.iterate s :: post →
      1 ≤ invocations post →
      ∃ s', iterate s = Except.ok s' ∧ s'.iterations < params.maxIterations ∧
        (checkConvergence (V := V) params.relativeErrorTol params.absoluteErrorTol
          params.errorTol s.error s'.error params.verbosity).1 = false ∧
        ∃ rest, post = Event.checkConvergence s.error s'.error false :: rest) := by
  rcases defaultOptimize_trace_eq iterate params fuel state with h | ⟨h1, h2, h3⟩
  · constructor
    · intro _ hinv
      rw [h] at hinv
      simp [invocations] at hinv
    · intro pre post s htrace
      rw [h] at htrace
      simp at htrace
  · rw [h1, h2, h3]
    exact ⟨fun hret _ => iterativeLoop_returned iterate params fuel state hret,
      fun pre post s htrace hpost =>
        iterativeLoop_continued iterate params fuel state pre post s htrace hpost⟩

/-- C18 on the run of `exampleBounce` from error 100 (budget 10, absolute tolerance
1e-5): it returns after two steps, below the budget, because `checkConvergence` is
true on the errors 90 and 91; the first step, which the second follows, was judged
not converged on the errors 100 and 90. -/
theorem defaultOptimize_stopping_condition_witness :
    (∃ (pre post : List (Event Unit)) (last : NonlinearOptimizerState Unit),
        (defaultOptimize exampleBounce (exampleParams 10 0 1e-5 0) 10
          (exampleState 100 0)).trace = pre ++ Event.iterate last :: post ∧
        invocations post = 0 ∧
        exampleBounce last = Except.ok (defaultOptimize exampleBounce
          (exampleParams 10 0 1e-5 0) 10 (exampleState 100 0)).state ∧
        ((exampleParams 10 0 1e-5 0).maxIterations ≤
            (defaultOptimize exampleBounce (exampleParams 10 0 1e-5 0) 10
              (exampleState 100 0)).state.iterations ∨
          (checkConvergence (V := Unit) (exampleParams 10 0 1e-5 0).relativeErrorTol
            (exampleParams 10 0 1e-5 0).absoluteErrorTol (exampleParams 10 0 1e-5 0).errorTol
            last.error (defaultOptimize exampleBounce (exampleParams 10 0 1e-5 0) 10
              (exampleState 100 0)).state.error
            (exampleParams 10 0 1e-5 0).verbosity).1 = true)) ∧
    (∃ s', exampleBounce (exampleState 100 0) = Except.ok s' ∧
        s'.iterations < (exampleParams 10 0 1e-5 0).maxIterations ∧
        (checkConvergence (V := Unit) (exampleParams 10 0 1e-5 0).relativeErrorTol
          (exampleParams 10 0 1e-5 0).absoluteErrorTol (exampleParams 10 0 1e-5 0).errorTol
          (exampleState 100 0).error s'.error (exampleParams 10 0 1e-5 0).verbosity).1 = false ∧
        ∃ rest, [Event.checkConvergence 100 90 false, Event.iterate (exampleState 90 1),
            Event.checkConvergence 90 91 true] =
          Event.checkConvergence (exampleState 100 0).error s'.error false :: rest) :=
  have key := defaultOptimize_stopping_condition exampleBounce (exampleParams 10 0 1e-5 0) 10
    (exampleState 100 0)
  ⟨key.1 exampleBounce_run.2.1 (by rw [exampleBounce_run.1]; simp [invocations]),
    key.2 [] _ (exampleState 100 0)
      (by rw [exampleBounce_run.1]; rfl) (by simp [invocations])⟩

/-! ## Theorems over machine doubles -/

namespace machine

/-- The verdict of `checkConvergence` over machine doubles as one boolean
expression. -/
theorem checkConvergence_machine_verdict {V : Type} (arith : Arithmetic)
    (r a e c n : Double) (v : Verbosity) :
    (checkConvergence (V := V) arith r a e c n v).1 =
      (n.le e || ((r.toBool && (arith.div (arith.sub c n) c).le r) ||
        (arith.sub c n).le a)) := by
  unfold checkConvergence
  by_cases h : n.le e = true
  · simp [h]
  · simp [h]

/-- On doubles, `x > y` excludes `x <= y`. -/
theorem Double.le_eq_false_of_lt (x y : Double) (h : y.lt x = true) : x.le y = false := by
  cases x <;> cases y <;> simp_all [Double.le, Double.lt, Double.toRat]

/-- A double that is not `<= tol`, for a tolerance `tol >= 0`, is not a zero; and
unless it is `NaN`, it is above `tol` and above zero. -/
theorem Double.not_zero_of_not_le (c tol : Double) (h : c.le tol = false)
    (htol : (Double.finite 0).le tol = true) :
    c ≠ Double.finite 0 ∧ c ≠ Double.negZero ∧
      (c ≠ Double.nan → tol.lt c = true ∧ (Double.finite 0).lt c = true) := by
  cases c <;> cases tol <;> simp_all [Double.le, Double.lt, Double.toRat]
  case finite.finite q t =>
    refine ⟨?_, ?_⟩
    · intro hq
      rw [hq] at h
      linarith
    · linarith
  case finite.negZero q => exact ne_of_gt h

/-- Without rounding, the test `relativeDecrease <= relativeErrorTreshold` on finite
operands is that of the exact model. -/
theorem exampleArithmetic_div_le (x y r : ℚ) :
    (exampleArithmetic.div (Double.finite x) (Double.finite y)).le (Double.finite r) =
      (divDouble x y).le r := by
  simp only [exampleArithmetic, divDouble]
  split_ifs <;> simp [Double.le, ExtDouble.le, Double.toRat]

/-- Without rounding, and on finite operands, the verdict over machine doubles is
the verdict of the exact model. -/
theorem checkConvergence_exact_eq_machine {V : Type} (r a e c n : ℚ) (v : Verbosity) :
    (gtsam.checkConvergence (V := V) r a e c n v).1 =
      (checkConvergence (V := V) exampleArithmetic (Double.finite r) (Double.finite a)
        (Double.finite e) (Double.finite c) (Double.finite n) v).1 := by
  rw [checkConvergence_verdict, checkConvergence_machine_verdict]
  have hsub : exampleArithmetic.sub (Double.finite c) (Double.finite n) =
      Double.finite (c - n) := rfl
  rw [hsub, exampleArithmetic_div_le]
  simp [Double.le, Double.toBool, Double.toRat]

end machine


namespace machine

/-- A double other than the two zeros converts to `true`. -/
theorem Double.toBool_of_ne_zero (x : Double) (h1 : x ≠ Double.finite 0)
    (h2 : x ≠ Double.negZero) : x.toBool = true := by
  cases x <;> simp_all [Double.toBool]

/-- The two zeros convert to `false`. -/
theorem Double.toBool_of_zero (x : Double) (h : x = Double.finite 0 ∨ x = Double.negZero) :
    x.toBool = false := by
  rcases h with h | h <;> simp [h, Double.toBool]

/-- C3: whenever `relativeErrorTol != 0` and the relative decrease the machine
computes, `relativeDecrease = (currentError - newError) / currentError`, is
`<= relativeErrorTol`, `checkConvergence` returns true: for all doubles (`NaN`,
infinities and zeros included) and whatever the subtraction and the division
round to. -/
theorem checkConvergence_true_of_relative_test {V : Type} (arith : Arithmetic)
    (relativeErrorTol absoluteErrorTol errorTol currentError newError : Double)
    (verbosity : Verbosity) (hrel : relativeErrorTol ≠ Double.finite 0)
    (hrel' : relativeErrorTol ≠ Double.negZero)
    (h : (arith.div (arith.sub currentError newError) currentError).le relativeErrorTol
      = true) :
    (checkConvergence (V := V) arith relativeErrorTol absoluteErrorTol errorTol currentError
      newError verbosity).1 = true := by
  rw [checkConvergence_machine_verdict]
  simp [Double.toBool_of_ne_zero _ hrel hrel', h]

/-- C3 at `relativeErrorTol = 0.5`, `absoluteErrorTol = 0`, `errorTol = 0`,
`currentError = 4`, `newError = 3`, where the decrease 1 and the relative decrease
0.25 are doubles and no rounding occurs; and at the scenario `relativeErrorTol =
1e-5`, `absoluteErrorTol = 1e-5`, `errorTol = 0`, `currentError = 100.0`, `newError
= 99.9999` in arithmetic without rounding, which gives `absoluteDecrease = 1e-4`
(above the absolute tolerance), `relativeDecrease = 1e-6` and the verdict true. -/
theorem checkConvergence_true_of_relative_test_witness :
    ((exampleArithmetic.div (exampleArithmetic.sub (Double.finite 4) (Double.finite 3))
        (Double.finite 4)).le (Double.finite (1 / 2)) = true ∧
      (checkConvergence (V := Unit) exampleArithmetic (Double.finite (1 / 2)) (Double.finite 0)
        (Double.finite 0) (Double.finite 4) (Double.finite 3) Verbosity.SILENT).1 = true) ∧
    (exampleArithmetic.sub (Double.finite 100.0) (Double.finite 99.9999) = Double.finite 1e-4 ∧
      exampleArithmetic.div (exampleArithmetic.sub (Double.finite 100.0) (Double.finite 99.9999))
        (Double.finite 100.0) = Double.finite 1e-6 ∧
      (Double.finite 1e-4).le (Double.finite 1e-5) = false ∧
      (Double.finite 99.9999).le (Double.finite 0) = false ∧
      (checkConvergence (V := Unit) exampleArithmetic (Double.finite 1e-5) (Double.finite 1e-5)
        (Double.finite 0) (Double.finite 100.0) (Double.finite 99.9999)
        Verbosity.SILENT).1 = true) :=
  have h1 : (exampleArithmetic.div (exampleArithmetic.sub (Double.finite 4) (Double.finite 3))
      (Double.finite 4)).le (Double.finite (1 / 2)) = true := by
    norm_num [exampleArithmetic, Double.le, Double.toRat]
  have hs : exampleArithmetic.sub (Double.finite 100.0) (Double.finite 99.9999) =
      Double.finite 1e-4 := by
    norm_num [exampleArithmetic]
  have hd : exampleArithmetic.div
      (exampleArithmetic.sub (Double.finite 100.0) (Double.finite 99.9999))
      (Double.finite 100.0) = Double.finite 1e-6 := by
    rw [hs]; norm_num [exampleArithmetic]
  have h2 : (exampleArithmetic.div
      (exampleArithmetic.sub (Double.finite 100.0) (Double.finite 99.9999))
      (Double.finite 100.0)).le (Double.finite 1e-5) = true := by
    rw [hd]; norm_num [Double.le, Double.toRat]
  ⟨⟨h1, checkConvergence_true_of_relative_test exampleArithmetic (Double.finite (1 / 2))
      (Double.finite 0) (Double.finite 0) (Double.finite 4) (Double.finite 3) Verbosity.SILENT
      (by norm_num) (by simp) h1⟩,
    hs, hd, by norm_num [Double.le, Double.toRat], by norm_num [Double.le, Double.toRat],
    checkConvergence_true_of_relative_test exampleArithmetic (Double.finite 1e-5)
      (Double.finite 1e-5) (Double.finite 0) (Double.finite 100.0) (Double.finite 99.9999)
      Verbosity.SILENT (by norm_num) (by simp) h2⟩

/-- C4: when none of the three tests succeeds on the values the machine computes
(`newError > errorTol`, `currentError - newError > absoluteErrorTol`, and
`relativeErrorTol = 0` or `relativeDecrease > relativeErrorTol`),
`checkConvergence` returns false; and with `relativeErrorTol = 0` (either zero)
the verdict is that of the other two tests alone, for every pair of errors.  This
holds for all doubles and whatever the subtraction and the division round to. -/
theorem checkConvergence_false_of_no_test_passed {V : Type} (arith : Arithmetic)
    (relativeErrorTol absoluteErrorTol errorTol currentError newError : Double)
    (verbosity : Verbosity) (herr : errorTol.lt newError = true)
    (habs : absoluteErrorTol.lt (arith.sub currentError newError) = true)
    (hrel : (relativeErrorTol = Double.finite 0 ∨ relativeErrorTol = Double.negZero) ∨
      relativeErrorTol.lt (arith.div (arith.sub currentError newError) currentError) = true) :
    (checkConvergence (V := V) arith relativeErrorTol absoluteErrorTol errorTol currentError
      newError verbosity).1 = false ∧
    ∀ zero : Double, zero = Double.finite 0 ∨ zero = Double.negZero →
      ∀ c n : Double,
        (checkConvergence (V := V) arith zero absoluteErrorTol errorTol c n verbosity).1 =
          (n.le errorTol || (arith.sub c n).le absoluteErrorTol) := by
  constructor
  · rw [checkConvergence_machine_verdict]
    have h1 := Double.le_eq_false_of_lt _ _ herr
    have h2 := Double.le_eq_false_of_lt _ _ habs
    rcases hrel with h0 | hgt
    · simp [h1, h2, Double.toBool_of_zero _ h0]
    · simp [h1, h2, Double.le_eq_false_of_lt _ _ hgt]
  · intro zero hzero c n
    rw [checkConvergence_machine_verdict]
    simp [Double.toBool_of_zero _ hzero]

/-- C4 at `relativeErrorTol = 0.125`, `absoluteErrorTol = 0.5`, `errorTol = 0`,
`currentError = 4`, `newError = 2`, where the decrease 2 and the relative decrease
0.5 are doubles and no rounding occurs. -/
theorem checkConvergence_false_of_no_test_passed_witness :
    (Double.finite 0).lt (Double.finite 2) = true ∧
      (Double.finite (1 / 2)).lt
        (exampleArithmetic.sub (Double.finite 4) (Double.finite 2)) = true ∧
      (Double.finite (1 / 8)).lt
        (exampleArithmetic.div (exampleArithmetic.sub (Double.finite 4) (Double.finite 2))
          (Double.finite 4)) = true ∧
      (checkConvergence (V := Unit) exampleArithmetic (Double.finite (1 / 8))
        (Double.finite (1 / 2)) (Double.finite 0) (Double.finite 4) (Double.finite 2)
        Verbosity.SILENT).1 = false :=
  have h1 : (Double.finite 0).lt (Double.finite 2) = true := by
    norm_num [Double.lt, Double.toRat]
  have h2 : (Double.finite (1 / 2)).lt
      (exampleArithmetic.sub (Double.finite 4) (Double.finite 2)) = true := by
    norm_num [exampleArithmetic, Double.lt, Double.toRat]
  have h3 : (Double.finite (1 / 8)).lt
      (exampleArithmetic.div (exampleArithmetic.sub (Double.finite 4) (Double.finite 2))
        (Double.finite 4)) = true := by
    norm_num [exampleArithmetic, Double.lt, Double.toRat]
  ⟨h1, h2, h3,
    (checkConvergence_false_of_no_test_passed exampleArithmetic (Double.finite (1 / 8))
      (Double.finite (1 / 2)) (Double.finite 0) (Double.finite 4) (Double.finite 2)
      Verbosity.SILENT h1 h2 (Or.inr h3)).1⟩

end machine


namespace machine

/-- One pass of the loop over machine doubles in which `iterate()` succeeds: the
calls it makes. -/
theorem iterativeLoop_machine_succ_ok {V : Type} (arith : Arithmetic)
    (iterate : NonlinearOptimizerState V → Except Exception (NonlinearOptimizerState V))
    (params : NonlinearOptimizerParams) (fuel : Nat)
    (state newState : NonlinearOptimizerState V) (hstep : iterate state = Except.ok newState) :
    (iterativeLoop arith iterate params (fuel + 1) state).trace =
      (if newState.iterations < params.maxIterations then
        if (checkConvergence (V := V) arith params.relativeErrorTol params.absoluteErrorTol
            params.errorTol state.error newState.error params.verbosity).1 = true then
          [Event.iterate state, Event.checkConvergence state.error newState.error true]
        else
          Event.iterate state :: Event.checkConvergence state.error newState.error false ::
            (iterativeLoop arith iterate params fuel newState).trace
      else [Event.iterate state]) := by
  simp only [iterativeLoop, hstep]
  by_cases hmax : newState.iterations < params.maxIterations
  · cases hc : (checkConvergence (V := V) arith params.relativeErrorTol
        params.absoluteErrorTol params.errorTol state.error newState.error
        params.verbosity).1 <;> simp [hmax, hc]
  · simp [hmax]

/-- One pass of the loop over machine doubles in which `iterate()` throws. -/
theorem iterativeLoop_machine_succ_error {V : Type} (arith : Arithmetic)
    (iterate : NonlinearOptimizerState V → Except Exception (NonlinearOptimizerState V))
    (params : NonlinearOptimizerParams) (fuel : Nat)
    (state : NonlinearOptimizerState V) (e : Exception) (hstep : iterate state = Except.error e) :
    iterativeLoop arith iterate params (fuel + 1) state =
      { status := Status.threw e, state := state, trace := [Event.iterate state],
        output := [] } := by
  simp only [iterativeLoop, hstep]

/-- Entered with an error for which `error <= errorTol` is false, the loop hands
`checkConvergence` only values of `currentError` for which it is false. -/
theorem iterativeLoop_machine_currentError {V : Type} (arith : Arithmetic)
    (iterate : NonlinearOptimizerState V → Except Exception (NonlinearOptimizerState V))
    (params : NonlinearOptimizerParams) :
    ∀ (fuel : Nat) (state : NonlinearOptimizerState V),
      state.error.le params.errorTol = false →
      ∀ (currentError newError : Double) (converged : Bool),
        Event.checkConvergence currentError newError converged ∈
          (iterativeLoop arith iterate params fuel state).trace →
        currentError.le params.errorTol = false := by
  intro fuel
  induction fuel with
  | zero => intro state _ c n b h; simp [iterativeLoop] at h
  | succ fuel ih =>
    intro state herr c n b h
    cases hi : iterate state with
    | error e =>
      rw [iterativeLoop_machine_succ_error arith iterate params fuel state e hi] at h
      simp at h
    | ok m =>
      rw [iterativeLoop_machine_succ_ok arith iterate params fuel state m hi] at h
      by_cases hmax : m.iterations < params.maxIterations
      · cases hc : (checkConvergence (V := V) arith params.relativeErrorTol
            params.absoluteErrorTol params.errorTol state.error m.error params.verbosity).1
        · simp only [hmax, hc, if_true, Bool.false_eq_true, if_false] at h
          simp at h
          rcases h with ⟨h1, _, _⟩ | h
          · rw [h1]; exact herr
          · have hm : m.error.le params.errorTol = false := by
              rw [checkConvergence_machine_verdict] at hc
              simp at hc
              exact hc.1
            exact ih m hm c n b h
        · simp only [hmax, hc, if_true] at h
          simp at h
          rw [h.1]; exact herr
      · simp only [hmax, if_false] at h
        simp at h

/-- The run of `exampleIterate` from a `NaN` error with budget 2: two steps, with
one call of `checkConvergence`, on `currentError = NaN`, in between. -/
theorem exampleIterate_run_nan :
    (defaultOptimize exampleArithmetic exampleIterate exampleParams 10
        (exampleState Double.nan 0)).trace =
      [Event.iterate (exampleState Double.nan 0),
        Event.checkConvergence Double.nan (Double.finite 5) false,
        Event.iterate (exampleState (Double.finite 5) 1)] := by
  norm_num [defaultOptimize, iterativeLoop, exampleIterate, exampleParams, exampleState,
    checkConvergence_machine_verdict, exampleArithmetic, Double.le, Double.toBool,
    Double.toRat]

/-- The run of `exampleIterate` from the error 8 with budget 2: two steps, with one
call of `checkConvergence`, on `currentError = 8`, in between. -/
theorem exampleIterate_run :
    (defaultOptimize exampleArithmetic exampleIterate exampleParams 10
        (exampleState (Double.finite 8) 0)).trace =
      [Event.iterate (exampleState (Double.finite 8) 0),
        Event.checkConvergence (Double.finite 8) (Double.finite 5) false,
        Event.iterate (exampleState (Double.finite 5) 1)] := by
  norm_num [defaultOptimize, iterativeLoop, exampleIterate, exampleParams, exampleState,
    checkConvergence_machine_verdict, exampleArithmetic, Double.le, Double.toBool,
    Double.toRat]

/-- C20 (as the code has it): with `errorTol >= 0`, every call of
`checkConvergence` that `defaultOptimize` makes, for every strategy, starting
state and arithmetic, receives a `currentError` for which `currentError <=
errorTol` is false; it is therefore neither zero, so that the division
`absoluteDecrease / currentError` is never a division by zero, and unless it is
`NaN` it is strictly greater than `errorTol` and strictly positive. -/
theorem defaultOptimize_no_division_by_zero {V : Type} (arith : Arithmetic)
    (iterate : NonlinearOptimizerState V → Except Exception (NonlinearOptimizerState V))
    (params : NonlinearOptimizerParams) (fuel : Nat)
    (state : NonlinearOptimizerState V)
    (htol : (Double.finite 0).le params.errorTol = true)
    (currentError newError : Double) (converged : Bool)
    (hcall : Event.checkConvergence currentError newError converged ∈
      (defaultOptimize arith iterate params fuel state).trace) :
    currentError.le params.errorTol = false ∧
      currentError ≠ Double.finite 0 ∧ currentError ≠ Double.negZero ∧
      (currentError ≠ Double.nan →
        params.errorTol.lt currentError = true ∧
          (Double.finite 0).lt currentError = true) := by
  have hle : currentError.le params.errorTol = false := by
    cases herr : state.error.le params.errorTol
    · by_cases hit : params.maxIterations ≤ state.iterations
      · simp [defaultOptimize, herr, hit] at hcall
      · have htrace : (defaultOptimize arith iterate params fuel state).trace =
            (iterativeLoop arith iterate params fuel state).trace := by
          simp [defaultOptimize, herr, hit]
        rw [htrace] at hcall
        exact iterativeLoop_machine_currentError arith iterate params fuel state herr
          currentError newError converged hcall
    · simp [defaultOptimize, herr] at hcall
  exact ⟨hle, Double.not_zero_of_not_le currentError params.errorTol hle htol⟩

/-- C20 on the run of `exampleIterate` from the error 8 with `errorTol = 0`: the
call of `checkConvergence` receives `currentError = 8`. -/
theorem defaultOptimize_no_division_by_zero_witness :
    (Double.finite 0).le exampleParams.errorTol = true ∧
      Event.checkConvergence (Double.finite 8) (Double.finite 5) false ∈
        (defaultOptimize exampleArithmetic exampleIterate exampleParams 10
          (exampleState (Double.finite 8) 0)).trace ∧
      ((Double.finite 8).le exampleParams.errorTol = false ∧
        Double.finite 8 ≠ Double.finite 0 ∧ Double.finite 8 ≠ Double.negZero ∧
        (Double.finite 8 ≠ Double.nan →
          exampleParams.errorTol.lt (Double.finite 8) = true ∧
            (Double.finite 0).lt (Double.finite 8) = true)) :=
  have htol : (Double.finite 0).le exampleParams.errorTol = true := by
    norm_num [exampleParams, Double.le, Double.toRat]
  have hcall : Event.checkConvergence (Double.finite 8) (Double.finite 5) false ∈
      (defaultOptimize exampleArithmetic exampleIterate exampleParams 10
        (exampleState (Double.finite 8) 0)).trace := by
    rw [exampleIterate_run]; simp
  ⟨htol, hcall,
    defaultOptimize_no_division_by_zero exampleArithmetic exampleIterate exampleParams 10
      (exampleState (Double.finite 8) 0) htol (Double.finite 8) (Double.finite 5) false hcall⟩

/-- C20 as stated fails: started from an error that is `NaN` (with `errorTol = 0`
and budget 2), the entry test `NaN <= errorTol` is false, the loop is entered, and
after the first step `checkConvergence` is called with `currentError = NaN`, which
is neither strictly greater than `errorTol` nor strictly positive. -/
theorem defaultOptimize_currentError_nan :
    (Double.finite 0).le exampleParams.errorTol = true ∧
      Event.checkConvergence Double.nan (Double.finite 5) false ∈
        (defaultOptimize exampleArithmetic exampleIterate exampleParams 10
          (exampleState Double.nan 0)).trace ∧
      exampleParams.errorTol.lt Double.nan = false ∧
      (Double.finite 0).lt Double.nan = false ∧
      ¬ (∀ (currentError newError : Double) (converged : Bool),
        Event.checkConvergence currentError newError converged ∈
          (defaultOptimize exampleArithmetic exampleIterate exampleParams 10
            (exampleState Double.nan 0)).trace →
        exampleParams.errorTol.lt currentError = true ∧
          (Double.finite 0).lt currentError = true) := by
  have hcall : Event.checkConvergence Double.nan (Double.finite 5) false ∈
      (defaultOptimize exampleArithmetic exampleIterate exampleParams 10
        (exampleState Double.nan 0)).trace := by
    rw [exampleIterate_run_nan]; simp
  have hlt : (Double.finite 0).lt Double.nan = false := by simp [Double.lt]
  refine ⟨by norm_num [exampleParams, Double.le, Double.toRat], hcall,
    by simp [exampleParams, Double.lt], hlt, ?_⟩
  intro h
  have := (h Double.nan (Double.finite 5) false hcall).2
  rw [hlt] at this
  cases this

end machine


end gtsam
